import Mathlib

/-! # Employee and task management server

A shallow embedding of `server-simple.js`: the Express route handlers are
functions from the two JSON documents (users, tasks), the authenticated user
(`req.user`), the route parameters and the request body to a response and the
documents as they are after the handler has run.

Conventions of the embedding.

* A request-body field is an optional string: `none` is JavaScript's
  `undefined` (the field is absent), `some s` a string. `req.body` itself is
  always an object (it is filled in by the `express.json()` middleware), so the
  `!req.body` test of the source never fires.
* `Date.now()` and `new Date()` are one clock reading `now` per request, in
  milliseconds; an ISO timestamp is kept as that number.
* `bcrypt` is a parameter: a hash function and a comparison function on
  strings. Handing `undefined` to either of them throws, as bcryptjs does.
* `new Date(s).toISOString()` is a parameter `parseDate`; it throws on a string
  that is not a date (`none`).
* `jwt.verify` is a parameter `jwtVerify`: it rejects the presented string as
  invalid or as expired, or returns the payload's `userId`.
* A request path is the list of its segments; the route table lists the
  handlers the source registers.
* An exception thrown inside a `try` block gives the 500 answer of its `catch`;
  one thrown in a handler without `try` gives the 500 answer of the Express
  error middleware. No write has happened in either case.
-/

namespace EmployeeTask

/-! ## Data model -/

/-- One record of `users.json`. -/
structure User where
  id : String
  name : Option String
  email : Option String
  password : String
  role : String
  phone : Option String
  department : Option String
  position : Option String
  isActive : Bool
  createdAt : Nat
  deriving DecidableEq

/-- One element of a task's `notes` array. -/
structure Note where
  text : String
  addedAt : Nat
  deriving DecidableEq

/-- One element of a task's `attachments` array. -/
structure Attachment where
  filename : String
  originalName : String
  mimetype : String
  size : Nat
  uploadedAt : Nat
  uploadedBy : String
  deriving DecidableEq

/-- One record of `tasks.json`. The field `_id` is the legacy identifier the
handlers also look a task up by; `attachments` is `none` when the record has no
array there (`Array.isArray` fails). -/
structure Task where
  id : String
  _id : Option String
  title : Option String
  description : Option String
  assignedTo : String
  assignedBy : String
  status : Option String
  priority : String
  dueDate : Option Nat
  createdAt : Nat
  completedAt : Option Nat
  notes : List Note
  attachments : Option (List Attachment)
  deriving DecidableEq

/-- The two JSON documents. -/
structure Store where
  users : List User
  tasks : List Task
  deriving DecidableEq

/-- The fields the handlers read from `req.body`. -/
structure Body where
  name : Option String
  email : Option String
  password : Option String
  role : Option String
  phone : Option String
  department : Option String
  position : Option String
  title : Option String
  description : Option String
  assignedTo : Option String
  priority : Option String
  dueDate : Option String
  status : Option String
  deriving DecidableEq

/-- The file object multer leaves in `req.file`. -/
structure UploadedFile where
  filename : String
  originalname : String
  mimetype : String
  size : Nat
  deriving DecidableEq

/-- The payload of a signed token: `jwt.sign` of an object with `userId`,
issued at `iat` and expiring at `exp` (seconds). -/
structure Token where
  userId : String
  iat : Nat
  exp : Nat
  deriving DecidableEq

/-- The `bcrypt` functions on strings. -/
structure Bcrypt where
  hash : String → String
  compare : String → String → Bool

/-! ## Responses -/

/-- The `user` object of the register, login and `me` answers. It has no
password field. -/
structure UserSummary where
  id : String
  name : Option String
  email : Option String
  role : String
  phone : Option String
  department : Option String
  position : Option String
  deriving DecidableEq

/-- The `employee` object of the create-employee answer. -/
structure EmployeeSummary where
  id : String
  name : Option String
  email : Option String
  phone : Option String
  department : Option String
  position : Option String
  deriving DecidableEq

/-- What a task's `assignedTo` or `assignedBy` holds in an answer: the stored
identifier, the user record `users.find` returned, `null`, or `undefined`. -/
inductive UserRef where
  | id (s : String)
  | user (u : User)
  | null
  | undefined
  deriving DecidableEq

/-- A task as it is sent in an answer: the spread of the stored record with
`assignedTo` and `assignedBy` overwritten. -/
structure TaskView where
  id : String
  _id : Option String
  title : Option String
  description : Option String
  assignedTo : UserRef
  assignedBy : UserRef
  status : Option String
  priority : String
  dueDate : Option Nat
  createdAt : Nat
  completedAt : Option Nat
  notes : List Note
  attachments : Option (List Attachment)
  deriving DecidableEq

/-- The `stats` object of the admin dashboard. -/
structure AdminStats where
  totalEmployees : Nat
  totalTasks : Nat
  completedTasks : Nat
  pendingTasks : Nat
  inProgressTasks : Nat
  deriving DecidableEq

/-- The `stats` object of the employee dashboard. -/
structure EmployeeStats where
  totalTasks : Nat
  completedTasks : Nat
  pendingTasks : Nat
  inProgressTasks : Nat
  deriving DecidableEq

/-- The JSON (or file) a handler answers with. -/
inductive Payload where
  | message (message : String)
  | auth (message : String) (token : Token) (user : UserSummary)
  | me (user : UserSummary)
  | employeeCreated (message : String) (employee : EmployeeSummary)
  | employeeNotFound (message : String) (availableEmployees : List (String × Option String))
  | adminDashboard (stats : AdminStats) (recentTasks : List TaskView)
  | employeeDashboard (stats : EmployeeStats) (recentTasks : List TaskView)
  | users (list : List User)
  | tasks (list : List TaskView)
  | task (t : TaskView)
  | taskMessage (message : String) (t : TaskView)
  | attachments (list : List Attachment)
  | uploaded (message : String) (attachment : Attachment)
  | download (filename : String) (originalName : String)
  | profile (u : User)
  | profileUpdated (message : String) (u : User)
  deriving DecidableEq

/-- An HTTP answer: status code and payload. -/
structure Response where
  status : Nat
  body : Payload
  deriving DecidableEq

/-! ## JavaScript helpers -/

/-- JavaScript truthiness of a body field: `undefined` and the empty string are
falsy. -/
def truthy : Option String → Bool
  | none => false
  | some s => s != ""

/-- The expression `a || d` for a body field `a` and a string `d`. -/
def orDefault (a : Option String) (d : String) : String :=
  match a with
  | none => d
  | some s => if s = "" then d else s

/-- The call `bcrypt.hash(password, 10)`: it throws (`none`) when the password
is `undefined`. -/
def bcryptHash (bc : Bcrypt) : Option String → Option String
  | none => none
  | some s => some (bc.hash s)

/-- The call `bcrypt.compare(password, hash)`: it throws (`none`) when the
password is `undefined`. -/
def bcryptCompare (bc : Bcrypt) : Option String → String → Option Bool
  | none, _ => none
  | some s, h => some (bc.compare s h)

/-- The call `jwt.sign` with `expiresIn` seven days. -/
def jwtSign (userId : String) (now : Nat) : Token :=
  { userId := userId, iat := now / 1000, exp := now / 1000 + 7 * 24 * 60 * 60 }

/-- The call `users.find(u => u.email === email)`. -/
def findByEmail (users : List User) (email : Option String) : Option User :=
  users.find? (fun u => decide (u.email = email))

/-- The call `users.find(u => u.id === id)`; `id` may be `undefined`. -/
def findById (users : List User) (id : Option String) : Option User :=
  users.find? (fun u => decide (some u.id = id))

/-- The test `t.id === id || t._id === id` of the task lookups. -/
def Task.hasId (t : Task) (id : String) : Bool :=
  decide (t.id = id) || decide (t._id = some id)

/-- The summary object built from a user record. -/
def User.summary (u : User) : UserSummary :=
  { id := u.id, name := u.name, email := u.email, role := u.role,
    phone := u.phone, department := u.department, position := u.position }

/-- The employee object built from a user record. -/
def User.employeeSummary (u : User) : EmployeeSummary :=
  { id := u.id, name := u.name, email := u.email,
    phone := u.phone, department := u.department, position := u.position }

/-! ## Authentication routes -/

/-- Handler of `POST /api/auth/register`. -/
def register (bc : Bcrypt) (now : Nat) (st : Store) (body : Body) : Response × Store :=
  if !truthy body.email || !truthy body.password || !truthy body.name then
    (⟨400, .message "Missing required fields: name, email, password"⟩, st)
  else
    match findByEmail st.users body.email with
    | some _ => (⟨400, .message "User already exists with this email"⟩, st)
    | none =>
      match bcryptHash bc body.password with
      | none => (⟨500, .message "Server error during registration"⟩, st)
      | some hashedPassword =>
        let newUser : User :=
          { id := toString now
            name := body.name
            email := body.email
            password := hashedPassword
            role := orDefault body.role "employee"
            phone := body.phone
            department := body.department
            position := body.position
            isActive := true
            createdAt := now }
        (⟨201, .auth "User registered successfully" (jwtSign newUser.id now) newUser.summary⟩,
          { st with users := st.users ++ [newUser] })

/-- Handler of `POST /api/auth/login`. -/
def login (bc : Bcrypt) (now : Nat) (st : Store) (body : Body) : Response × Store :=
  if !truthy body.email || !truthy body.password then
    (⟨400, .message "Missing required fields: email, password"⟩, st)
  else
    match findByEmail st.users body.email with
    | none => (⟨400, .message "Invalid credentials"⟩, st)
    | some user =>
      match bcryptCompare bc body.password user.password with
      | none => (⟨500, .message "Server error during login"⟩, st)
      | some false => (⟨400, .message "Invalid credentials"⟩, st)
      | some true =>
        if !user.isActive then
          (⟨400, .message "Account is deactivated"⟩, st)
        else
          (⟨200, .auth "Login successful" (jwtSign user.id now) user.summary⟩, st)

/-- Handler of `GET /api/auth/me`. -/
def me (st : Store) (user : User) : Response × Store :=
  (⟨200, .me user.summary⟩, st)

/-! ## Task views -/

/-- The value `users.find(...) || null`. -/
def orNull : Option User → UserRef
  | some u => .user u
  | none => .null

/-- The value `users.find(...)`, left `undefined` when nothing is found. -/
def orUndefined : Option User → UserRef
  | some u => .user u
  | none => .undefined

/-- The spread of a task with `assignedTo` and `assignedBy` set. -/
def Task.view (t : Task) (assignedTo assignedBy : UserRef) : TaskView :=
  { id := t.id, _id := t._id, title := t.title, description := t.description,
    assignedTo := assignedTo, assignedBy := assignedBy, status := t.status,
    priority := t.priority, dueDate := t.dueDate, createdAt := t.createdAt,
    completedAt := t.completedAt, notes := t.notes, attachments := t.attachments }

/-- The number of tasks with `t.status === s`. -/
def countStatus (tasks : List Task) (s : String) : Nat :=
  (tasks.filter (fun t => decide (t.status = some s))).length

/-- The call `tasks.sort((a, b) => new Date(b.createdAt) - new Date(a.createdAt))`:
a stable sort, most recently created first. -/
def sortRecent (tasks : List Task) : List Task :=
  tasks.insertionSort (fun a b => b.createdAt ≤ a.createdAt)

/-- The condition `req.user.role !== 'admin' && task.assignedTo !== req.user.id`
that answers 403. -/
def accessDenied (user : User) (task : Task) : Bool :=
  user.role != "admin" && task.assignedTo != user.id

/-! ## Admin routes -/

/-- Handler of `GET /api/admin/dashboard`. -/
def adminDashboard (st : Store) (user : User) : Response × Store :=
  if user.role != "admin" then
    (⟨403, .message "Access denied"⟩, st)
  else
    let users := st.users
    let tasks := st.tasks
    let stats : AdminStats :=
      { totalEmployees := (users.filter (fun u => decide (u.role = "employee") && u.isActive)).length
        totalTasks := tasks.length
        completedTasks := countStatus tasks "completed"
        pendingTasks := countStatus tasks "pending"
        inProgressTasks := countStatus tasks "in_progress" }
    let recentTasks := ((sortRecent tasks).take 5).map (fun task =>
      task.view (orUndefined (findById users (some task.assignedTo)))
        (orUndefined (findById users (some task.assignedBy))))
    (⟨200, .adminDashboard stats recentTasks⟩, st)

/-- Handler of `GET /api/admin/employees`. -/
def listEmployees (st : Store) (user : User) : Response × Store :=
  if user.role != "admin" then
    (⟨403, .message "Access denied"⟩, st)
  else
    (⟨200, .users (st.users.filter (fun u => decide (u.role = "employee")))⟩, st)

/-- Handler of `POST /api/admin/employees`. -/
def createEmployee (bc : Bcrypt) (now : Nat) (st : Store) (user : User) (body : Body) :
    Response × Store :=
  if user.role != "admin" then
    (⟨403, .message "Access denied"⟩, st)
  else
    match findByEmail st.users body.email with
    | some _ => (⟨400, .message "User already exists with this email"⟩, st)
    | none =>
      match bcryptHash bc body.password with
      | none => (⟨500, .message "Server error"⟩, st)
      | some hashedPassword =>
        let newUser : User :=
          { id := toString now
            name := body.name
            email := body.email
            password := hashedPassword
            role := "employee"
            phone := body.phone
            department := body.department
            position := body.position
            isActive := true
            createdAt := now }
        (⟨201, .employeeCreated "Employee created successfully" newUser.employeeSummary⟩,
          { st with users := st.users ++ [newUser] })

/-- Handler of `GET /api/admin/tasks`. -/
def listAllTasks (st : Store) (user : User) : Response × Store :=
  if user.role != "admin" then
    (⟨403, .message "Access denied"⟩, st)
  else
    (⟨200, .tasks (st.tasks.map (fun task =>
      task.view (orNull (findById st.users (some task.assignedTo)))
        (orNull (findById st.users (some task.assignedBy)))))⟩, st)

/-- Handler of `GET /api/employee/tasks/:id`. -/
def getTask (st : Store) (user : User) (id : String) : Response × Store :=
  match st.tasks.find? (fun t => t.hasId id) with
  | none => (⟨404, .message "Task not found"⟩, st)
  | some task =>
    if accessDenied user task then
      (⟨403, .message "Access denied"⟩, st)
    else
      (⟨200, .task (task.view (orNull (findById st.users (some task.assignedTo)))
        (orNull (findById st.users (some task.assignedBy))))⟩, st)

/-- The value `dueDate ? new Date(dueDate).toISOString() : null`: the outer
`none` is the exception of an invalid date, the inner `none` is `null`. -/
def dueDateOf (parseDate : String → Option Nat) (dueDate : Option String) :
    Option (Option Nat) :=
  match dueDate with
  | none => some none
  | some s => if s = "" then some none else (parseDate s).map some

/-- Handler of `POST /api/admin/tasks`. The stored `assignedTo` is the submitted
identifier, which is the `id` of the user `find` returned. -/
def createTask (parseDate : String → Option Nat) (now : Nat) (st : Store) (user : User)
    (body : Body) : Response × Store :=
  if user.role != "admin" then
    (⟨403, .message "Access denied"⟩, st)
  else
    match findById st.users body.assignedTo with
    | none =>
      (⟨400, .employeeNotFound "Employee not found. Please select a valid employee."
        ((st.users.filter (fun u => decide (u.role = "employee"))).map
          (fun u => (u.id, u.name)))⟩, st)
    | some assignedUser =>
      if assignedUser.role != "employee" then
        (⟨400, .message "Selected user is not an employee"⟩, st)
      else
        match dueDateOf parseDate body.dueDate with
        | none => (⟨500, .message "Something went wrong!"⟩, st)
        | some dueDate =>
          let newTask : Task :=
            { id := toString now
              _id := none
              title := body.title
              description := body.description
              assignedTo := assignedUser.id
              assignedBy := user.id
              status := some "pending"
              priority := orDefault body.priority "medium"
              dueDate := dueDate
              createdAt := now
              completedAt := none
              notes := []
              attachments := some [] }
          (⟨201, .taskMessage "Task created successfully"
              (newTask.view (.user assignedUser) (.id newTask.assignedBy))⟩,
            { st with tasks := st.tasks ++ [newTask] })

/-- The assignments of `PUT /api/admin/tasks/:id` to `tasks[idx]` after the
assignee has been dealt with: title, description, priority, due date (already
converted) and status, each only when the request carries it. -/
def patchTask (now : Nat) (body : Body) (dueDate : Option Nat) (t : Task) : Task :=
  let t := match body.title with
    | some v => { t with title := some v }
    | none => t
  let t := match body.description with
    | some v => { t with description := some v }
    | none => t
  let t := match body.priority with
    | some v => { t with priority := v }
    | none => t
  let t := match body.dueDate with
    | some _ => { t with dueDate := dueDate }
    | none => t
  match body.status with
  | some v =>
    if v = "completed" then { t with status := some v, completedAt := some now }
    else { t with status := some v }
  | none => t

/-- Handler of `PUT /api/admin/tasks/:id`. -/
def updateTask (parseDate : String → Option Nat) (now : Nat) (st : Store) (user : User)
    (id : String) (body : Body) : Response × Store :=
  if user.role != "admin" then
    (⟨403, .message "Access denied"⟩, st)
  else
    match st.tasks.findIdx? (fun t => t.hasId id) with
    | none => (⟨404, .message "Task not found"⟩, st)
    | some idx =>
      match st.tasks[idx]? with
      | none => (⟨500, .message "Something went wrong!"⟩, st)
      | some old =>
        let reassigned : Option Task :=
          match body.assignedTo with
          | none => some old
          | some assignedTo =>
            if assignedTo = "" then some old
            else
              match findById st.users (some assignedTo) with
              | none => none
              | some u =>
                if u.role != "employee" then none else some { old with assignedTo := assignedTo }
        match reassigned with
        | none => (⟨400, .message "Invalid assignee"⟩, st)
        | some t =>
          match dueDateOf parseDate body.dueDate with
          | none => (⟨500, .message "Something went wrong!"⟩, st)
          | some dueDate =>
            let task := patchTask now body dueDate t
            (⟨200, .taskMessage "Task updated successfully"
                (task.view (orNull (findById st.users (some task.assignedTo)))
                  (orNull (findById st.users (some task.assignedBy))))⟩,
              { st with tasks := st.tasks.set idx task })

/-- Handler of `DELETE /api/admin/tasks/:id`. -/
def deleteTask (st : Store) (user : User) (id : String) : Response × Store :=
  if user.role != "admin" then
    (⟨403, .message "Access denied"⟩, st)
  else
    match st.tasks.findIdx? (fun t => t.hasId id) with
    | none => (⟨404, .message "Task not found"⟩, st)
    | some idx =>
      (⟨200, .message "Task deleted successfully"⟩, { st with tasks := st.tasks.eraseIdx idx })

/-! ## Employee routes -/

/-- Handler of `GET /api/employee/dashboard`. -/
def employeeDashboard (st : Store) (user : User) : Response × Store :=
  let userTasks := st.tasks.filter (fun t => decide (t.assignedTo = user.id))
  let stats : EmployeeStats :=
    { totalTasks := userTasks.length
      completedTasks := countStatus userTasks "completed"
      pendingTasks := countStatus userTasks "pending"
      inProgressTasks := countStatus userTasks "in_progress" }
  let recentTasks := ((sortRecent userTasks).take 5).map (fun task =>
    task.view (.id task.assignedTo) (orUndefined (findById st.users (some task.assignedBy))))
  (⟨200, .employeeDashboard stats recentTasks⟩, st)

/-- Handler of `GET /api/employee/tasks`. -/
def listMyTasks (st : Store) (user : User) : Response × Store :=
  let userTasks := st.tasks.filter (fun t => decide (t.assignedTo = user.id))
  (⟨200, .tasks (userTasks.map (fun task =>
    task.view (.id task.assignedTo) (orNull (findById st.users (some task.assignedBy)))))⟩, st)

/-- Handler of `PUT /api/employee/tasks/:id/status`. -/
def updateStatus (now : Nat) (st : Store) (user : User) (id : String) (body : Body) :
    Response × Store :=
  match st.tasks.findIdx? (fun t => t.hasId id && decide (t.assignedTo = user.id)) with
  | none => (⟨404, .message "Task not found"⟩, st)
  | some taskIndex =>
    match st.tasks[taskIndex]? with
    | none => (⟨500, .message "Something went wrong!"⟩, st)
    | some old =>
      let task : Task :=
        if body.status = some "completed" then
          { old with status := body.status, completedAt := some now }
        else { old with status := body.status }
      (⟨200, .message "Task status updated successfully"⟩,
        { st with tasks := st.tasks.set taskIndex task })

/-- The value `Array.isArray(task.attachments) ? task.attachments : []`. -/
def Task.attachmentList (t : Task) : List Attachment :=
  t.attachments.getD []

/-- Handler of `GET /api/tasks/:id/attachments`. -/
def listAttachments (st : Store) (user : User) (id : String) : Response × Store :=
  match st.tasks.find? (fun t => t.hasId id) with
  | none => (⟨404, .message "Task not found"⟩, st)
  | some task =>
    if accessDenied user task then
      (⟨403, .message "Access denied"⟩, st)
    else
      (⟨200, .attachments task.attachmentList⟩, st)

/-- Handler of `POST /api/employee/tasks/:id/upload`, run after multer has
stored the file and filled `req.file`. -/
def uploadAttachment (now : Nat) (st : Store) (user : User) (id : String)
    (file : Option UploadedFile) : Response × Store :=
  match st.tasks.findIdx? (fun t => t.hasId id) with
  | none => (⟨404, .message "Task not found"⟩, st)
  | some idx =>
    match st.tasks[idx]? with
    | none => (⟨500, .message "Something went wrong!"⟩, st)
    | some task =>
      if accessDenied user task then
        (⟨403, .message "Access denied"⟩, st)
      else
        match file with
        | none => (⟨400, .message "No file uploaded"⟩, st)
        | some f =>
          let attachment : Attachment :=
            { filename := f.filename
              originalName := f.originalname
              mimetype := f.mimetype
              size := f.size
              uploadedAt := now
              uploadedBy := user.id }
          let task := { task with attachments := some (task.attachmentList ++ [attachment]) }
          (⟨201, .uploaded "File uploaded successfully" attachment⟩,
            { st with tasks := st.tasks.set idx task })

/-- Handler of `GET /api/tasks/:id/attachments/:filename`; `onDisk` is
`fs.existsSync` on the uploads directory. -/
def downloadAttachment (onDisk : String → Bool) (st : Store) (user : User) (id : String)
    (filename : String) : Response × Store :=
  match st.tasks.find? (fun t => t.hasId id) with
  | none => (⟨404, .message "Task not found"⟩, st)
  | some task =>
    if accessDenied user task then
      (⟨403, .message "Access denied"⟩, st)
    else
      match task.attachmentList.find? (fun a => decide (a.filename = filename)) with
      | none => (⟨404, .message "File not found for this task"⟩, st)
      | some found =>
        if !onDisk filename then
          (⟨404, .message "Stored file missing on server"⟩, st)
        else
          (⟨200, .download filename found.originalName⟩, st)

/-- Handler of `GET /api/employee/profile`. -/
def getProfile (st : Store) (user : User) : Response × Store :=
  (⟨200, .profile user⟩, st)

/-- Handler of `PUT /api/employee/profile`. -/
def updateProfile (st : Store) (user : User) (body : Body) : Response × Store :=
  match st.users.findIdx? (fun u => decide (u.id = user.id)) with
  | some userIndex =>
    match st.users[userIndex]? with
    | none => (⟨500, .message "Something went wrong!"⟩, st)
    | some old =>
      let updated : User :=
        { old with
          name := if truthy body.name then body.name else old.name
          phone := body.phone
          department := body.department
          position := body.position }
      (⟨200, .profileUpdated "Profile updated successfully" updated⟩,
        { st with users := st.users.set userIndex updated })
  | none => (⟨404, .message "User not found"⟩, st)

/-! ## Sample data -/

/-- The assignment to the object `users.find` returned: the first element
satisfying `p` is replaced by its image under `f`. -/
def updateFirst {α : Type} (p : α → Bool) (f : α → α) : List α → List α
  | [] => []
  | x :: xs => if p x then f x :: xs else x :: updateFirst p f xs

/-- The sample admin record. -/
def sampleAdmin (now : Nat) : User :=
  { id := "1"
    name := some "Admin User"
    email := some "admin@example.com"
    password := "$2a$10$92IXUNpkjO0rOQ5byMi.Ye4oKoEa3Ro9llC/.og/at2.uheWG/igi"
    role := "admin"
    phone := some "123-456-7890"
    department := some "IT"
    position := some "System Administrator"
    isActive := true
    createdAt := now }

/-- The demo employee record. -/
def sampleEmployee (bc : Bcrypt) (now : Nat) : User :=
  { id := toString now
    name := some "Farhani Bushe"
    email := some "farhanibushe@gmail.com"
    password := bc.hash "12345678"
    role := "employee"
    phone := some "000-000-0000"
    department := some "General"
    position := some "Staff"
    isActive := true
    createdAt := now }

/-- The function `initializeSampleData`, run when the server starts. -/
def initializeSampleData (bc : Bcrypt) (now : Nat) (st : Store) : Store :=
  let users :=
    match findByEmail st.users (some "admin@example.com") with
    | none => st.users ++ [sampleAdmin now]
    | some _ => st.users
  match findByEmail users (some "farhanibushe@gmail.com") with
  | none => { st with users := users ++ [sampleEmployee bc now] }
  | some existingDemo =>
    let passwordMatches := bc.compare "12345678" existingDemo.password
    if !passwordMatches || !existingDemo.isActive then
      let reset := updateFirst (fun u => decide (u.email = some "farhanibushe@gmail.com"))
        (fun u => { u with password := bc.hash "12345678", isActive := true }) users
      { st with users := reset }
    else
      { st with users := users }

/-! ## The auth middleware -/

/-- What `jwt.verify(token, secret)` does with the presented string at the time
of the request: it throws a JsonWebTokenError (`invalid`) or a
TokenExpiredError (`expired`), or returns the payload, of which the middleware
reads `userId`. -/
inductive JwtResult where
  | invalid
  | expired
  | decoded (userId : Option String)
  deriving DecidableEq

/-- The outcome of the middleware: the answer it sends itself, or the user it
puts in `req.user` before calling `next()`. -/
inductive AuthResult where
  | denied (res : Response)
  | user (u : User)
  deriving DecidableEq

/-- JavaScript's `s.replace(pat, '')` for a string pattern: the first
occurrence of `pat` is removed. -/
def removeFirst (pat : List Char) : List Char → List Char
  | [] => []
  | c :: cs =>
    if pat.isPrefixOf (c :: cs) then (c :: cs).drop pat.length else c :: removeFirst pat cs

/-- The first line of `auth`: the Authorization header without its first
"Bearer ", or `null` (`none`) when the header is absent or empty. -/
def bearerToken (authorization : Option String) : Option String :=
  match authorization with
  | none => none
  | some h => if h = "" then none else some (String.mk (removeFirst "Bearer ".toList h.toList))

/-- The middleware `auth`; `jwtVerify` is `jwt.verify` with the server's secret
at the time of the request. -/
def auth (jwtVerify : String → JwtResult) (st : Store) (authorization : Option String) :
    AuthResult :=
  let token := bearerToken authorization
  if !truthy token then
    .denied ⟨401, .message "No token, authorization denied"⟩
  else
    match jwtVerify (token.getD "") with
    | .invalid => .denied ⟨401, .message "Token is not valid"⟩
    | .expired => .denied ⟨401, .message "Token is not valid"⟩
    | .decoded userId =>
      match findById st.users userId with
      | none => .denied ⟨401, .message "Token is not valid"⟩
      | some user => .user user

/-! ## The registered routes -/

/-- The request methods the server registers handlers for. -/
inductive Method where
  | get
  | post
  | put
  | delete
  deriving DecidableEq

/-- One segment of a route path: a literal, or a parameter such as `:id`. -/
inductive Segment where
  | lit (s : String)
  | param
  deriving DecidableEq

/-- The handlers registered with `app.get`, `app.post`, `app.put` and
`app.delete`, in the order of the source. -/
def routes : List (Method × List Segment) :=
  [ (.get, [.lit "api", .lit "test"]),
    (.post, [.lit "api", .lit "auth", .lit "register"]),
    (.post, [.lit "api", .lit "auth", .lit "login"]),
    (.get, [.lit "api", .lit "auth", .lit "me"]),
    (.get, [.lit "api", .lit "admin", .lit "dashboard"]),
    (.get, [.lit "api", .lit "admin", .lit "employees"]),
    (.post, [.lit "api", .lit "admin", .lit "employees"]),
    (.get, [.lit "api", .lit "admin", .lit "tasks"]),
    (.get, [.lit "api", .lit "employee", .lit "tasks", .param]),
    (.post, [.lit "api", .lit "admin", .lit "tasks"]),
    (.put, [.lit "api", .lit "admin", .lit "tasks", .param]),
    (.delete, [.lit "api", .lit "admin", .lit "tasks", .param]),
    (.get, [.lit "api", .lit "employee", .lit "dashboard"]),
    (.get, [.lit "api", .lit "employee", .lit "tasks"]),
    (.put, [.lit "api", .lit "employee", .lit "tasks", .param, .lit "status"]),
    (.get, [.lit "api", .lit "tasks", .param, .lit "attachments"]),
    (.post, [.lit "api", .lit "employee", .lit "tasks", .param, .lit "upload"]),
    (.get, [.lit "api", .lit "tasks", .param, .lit "attachments", .param]),
    (.get, [.lit "api", .lit "employee", .lit "profile"]),
    (.put, [.lit "api", .lit "employee", .lit "profile"]),
    (.get, []) ]

/-- Whether a path segment fits a pattern segment: a parameter takes any
non-empty segment. -/
def Segment.fits : Segment → String → Bool
  | .lit s, x => s == x
  | .param, x => x != ""

/-- Whether the segments of a request path fit a route path. -/
def matchPath : List Segment → List String → Bool
  | [], [] => true
  | p :: ps, x :: xs => p.fits x && matchPath ps xs
  | _, _ => false

/-- Whether one of the registered handlers takes the request. -/
def routed (m : Method) (path : List String) : Bool :=
  routes.any (fun r => decide (r.1 = m) && matchPath r.2 path)

/-- The answer to a request that no registered handler takes: it reaches the
final `app.use('*', ...)`, which answers 404 and reads and writes nothing.
The value is `none` when a registered handler takes the request. -/
def unroutedAnswer (m : Method) (path : List String) (st : Store) :
    Option (Response × Store) :=
  if routed m path then none else some (⟨404, .message "Route not found"⟩, st)

/-! ## File names of uploads -/

/-- The characters the class `[a-zA-Z0-9_.-]` of `storage.filename` keeps. -/
def safeChar (c : Char) : Bool :=
  (decide ('a' ≤ c) && decide (c ≤ 'z')) || (decide ('A' ≤ c) && decide (c ≤ 'Z')) ||
    (decide ('0' ≤ c) && decide (c ≤ '9')) || c == '_' || c == '.' || c == '-'

/-- What the global replace makes of one character: it keeps a character of the
class and writes an underscore for every UTF-16 code unit of another one. -/
def sanitizeChar (c : Char) : List Char :=
  if safeChar c then [c] else if c.toNat < 65536 then ['_'] else ['_', '_']

/-- The value `file.originalname.replace(/[^a-zA-Z0-9_.-]/g, '_')`. -/
def sanitize (name : String) : String :=
  String.mk (name.toList.flatMap sanitizeChar)

/-- The name `storage.filename` gives the stored file; `random` is
`Math.round(Math.random() * 1e9)`. -/
def storageFilename (now random : Nat) (originalname : String) : String :=
  toString now ++ "-" ++ toString random ++ "-" ++ sanitize originalname

/-- The `req.file` multer builds for an uploaded part. -/
def multerFile (now random : Nat) (originalname mimetype : String) (size : Nat) :
    UploadedFile :=
  { filename := storageFilename now random originalname
    originalname := originalname
    mimetype := mimetype
    size := size }

/-! ## Predicates and concrete data used in the statements -/

/-- No two records of the user document have the same `email`. -/
def EmailsUnique (users : List User) : Prop :=
  (users.map (fun u => u.email)).Nodup

instance (users : List User) : Decidable (EmailsUnique users) := by
  unfold EmailsUnique
  infer_instance

/-- A bcrypt stand-in for concrete evaluations. -/
def demoBcrypt : Bcrypt :=
  { hash := fun s => "hashed:" ++ s
    compare := fun s h => decide (h = "hashed:" ++ s) }

/-- A body with no field. -/
def emptyBody : Body :=
  { name := none, email := none, password := none, role := none, phone := none,
    department := none, position := none, title := none, description := none,
    assignedTo := none, priority := none, dueDate := none, status := none }

/-- An administrator record for concrete evaluations. -/
def demoAdmin : User :=
  { id := "a1", name := some "Ann", email := some "a@x.com", password := "hashed:secret",
    role := "admin", phone := none, department := none, position := none,
    isActive := true, createdAt := 1 }

/-- An employee record for concrete evaluations. -/
def demoEmployee : User :=
  { id := "e1", name := some "Eve", email := some "e@x.com", password := "hashed:pass",
    role := "employee", phone := none, department := none, position := none,
    isActive := true, createdAt := 2 }

/-- A task assigned to the demo employee by the demo administrator. -/
def demoTask : Task :=
  { id := "t1", _id := none, title := some "Report", description := some "Write it",
    assignedTo := "e1", assignedBy := "a1", status := some "pending", priority := "high",
    dueDate := none, createdAt := 3, completedAt := none, notes := [],
    attachments := some [] }

/-- A store with the demo administrator, the demo employee and the demo task. -/
def demoStore : Store :=
  { users := [demoAdmin, demoEmployee], tasks := [demoTask] }

/-- A second employee, to whom the demo task is not assigned. -/
def otherEmployee : User :=
  { id := "e2", name := some "Oto", email := some "o@x.com", password := "hashed:word",
    role := "employee", phone := none, department := none, position := none,
    isActive := true, createdAt := 4 }

/-- An uploaded file for concrete evaluations. -/
def demoFile : UploadedFile :=
  { filename := "7-1-notes.txt", originalname := "notes.txt", mimetype := "text/plain",
    size := 12 }

/-- A stand-in for `jwt.verify` in concrete evaluations. -/
def demoJwtVerify : String → JwtResult :=
  fun s =>
    if s = "token-e1" then .decoded (some "e1")
    else if s = "token-gone" then .decoded (some "gone")
    else if s = "token-old" then .expired
    else .invalid

/-- A stand-in for the date conversion in concrete evaluations: it knows one
date; the other strings used below are not dates. -/
def demoParseDate : String → Option Nat :=
  fun s => if s = "2030-01-01" then some 1893456000000 else none

/-- A store whose only task already has the identifier "9". -/
def takenIdStore : Store :=
  { users := [demoAdmin, demoEmployee], tasks := [{ demoTask with id := "9" }] }

/-- The stores the running server can hold: the data files start as empty
arrays, and each step is the sample-data initialisation or one request to a
writing route. A route behind the `auth` middleware runs with `req.user` the
stored record `users.find` returns for the token's user id. -/
inductive Reachable (bc : Bcrypt) (parseDate : String → Option Nat) : Store → Prop
  | start : Reachable bc parseDate ⟨[], []⟩
  | bySampleData (now : Nat) (st : Store) :
      Reachable bc parseDate st → Reachable bc parseDate (initializeSampleData bc now st)
  | byRegister (now : Nat) (st : Store) (body : Body) :
      Reachable bc parseDate st → Reachable bc parseDate (register bc now st body).2
  | byCreateEmployee (now : Nat) (st : Store) (user : User) (body : Body) :
      Reachable bc parseDate st → findById st.users (some user.id) = some user →
      Reachable bc parseDate (createEmployee bc now st user body).2
  | byCreateTask (now : Nat) (st : Store) (user : User) (body : Body) :
      Reachable bc parseDate st → findById st.users (some user.id) = some user →
      Reachable bc parseDate (createTask parseDate now st user body).2
  | byUpdateTask (now : Nat) (st : Store) (user : User) (id : String) (body : Body) :
      Reachable bc parseDate st → findById st.users (some user.id) = some user →
      Reachable bc parseDate (updateTask parseDate now st user id body).2
  | byDeleteTask (st : Store) (user : User) (id : String) :
      Reachable bc parseDate st → findById st.users (some user.id) = some user →
      Reachable bc parseDate (deleteTask st user id).2
  | byUpdateStatus (now : Nat) (st : Store) (user : User) (id : String) (body : Body) :
      Reachable bc parseDate st → findById st.users (some user.id) = some user →
      Reachable bc parseDate (updateStatus now st user id body).2
  | byUploadAttachment (now : Nat) (st : Store) (user : User) (id : String)
      (file : Option UploadedFile) :
      Reachable bc parseDate st → findById st.users (some user.id) = some user →
      Reachable bc parseDate (uploadAttachment now st user id file).2
  | byUpdateProfile (st : Store) (user : User) (body : Body) :
      Reachable bc parseDate st → findById st.users (some user.id) = some user →
      Reachable bc parseDate (updateProfile st user body).2

/-- The store after the first start of the server at clock reading 100. -/
def startedStore : Store :=
  initializeSampleData demoBcrypt 100 ⟨[], []⟩

/-- The store after the sample admin has then created a task for the demo
employee at clock reading 200. -/
def oneTaskStore : Store :=
  (createTask demoParseDate 200 startedStore (sampleAdmin 100)
    { emptyBody with title := some "T", assignedTo := some "100" }).2

/-- The store after the demo employee has then set the status of that task to
"blocked". -/
def blockedStore : Store :=
  (updateStatus 300 oneTaskStore (sampleEmployee demoBcrypt 100) "200"
    { emptyBody with status := some "blocked" }).2

/-- The spec's "five most recently created tasks, ties broken by stable input
order": `kept` is what is shown of `tasks`. With `left` the tasks left out,
`kept` has min(5, number of tasks) elements, is ordered by createdAt
descending, holds no task older than a task left out, and for every timestamp
the kept tasks of that timestamp are the first ones of the store, in store
order. -/
def MostRecentFive (tasks kept : List Task) : Prop :=
  ∃ left : List Task,
    (kept ++ left).Perm tasks ∧
    kept.length = min 5 tasks.length ∧
    kept.Pairwise (fun a b => b.createdAt ≤ a.createdAt) ∧
    (∀ a ∈ kept, ∀ b ∈ left, b.createdAt ≤ a.createdAt) ∧
    ∀ c : Nat, kept.filter (fun t => decide (t.createdAt = c)) <+:
      tasks.filter (fun t => decide (t.createdAt = c))

/-- A store whose only user is an employee with the sample admin's email. -/
def employeeWithAdminEmailStore : Store :=
  { users := [{ demoEmployee with email := some "admin@example.com" }], tasks := [] }

/-- The demo store after the demo administrator has created two tasks, both at
clock reading 9. -/
def twoCreatesStore : Store :=
  (createTask demoParseDate 9
    (createTask demoParseDate 9 demoStore demoAdmin
      { emptyBody with title := some "First", assignedTo := some "e1" }).2
    demoAdmin { emptyBody with title := some "Second", assignedTo := some "e1" }).2

/-! ## Properties of the helpers -/

theorem truthy_eq_true_iff (a : Option String) :
    truthy a = true ↔ ∃ s, a = some s ∧ s ≠ "" := by
  cases a with
  | none => simp [truthy]
  | some s => simp [truthy]

theorem truthy_eq_false_iff (a : Option String) :
    truthy a = false ↔ (a = none ∨ a = some "") := by
  cases a with
  | none => simp [truthy]
  | some s => simp [truthy]

theorem findByEmail_eq_none_iff (users : List User) (email : Option String) :
    findByEmail users email = none ↔ ∀ u ∈ users, u.email ≠ email := by
  simp [findByEmail]

theorem findByEmail_eq_some {users : List User} {email : Option String} {u : User}
    (h : findByEmail users email = some u) : u ∈ users ∧ u.email = email := by
  refine ⟨List.mem_of_find?_eq_some h, ?_⟩
  have := List.find?_some h
  simpa using this

theorem findByEmail_isSome_iff (users : List User) (email : Option String) :
    (∃ u, findByEmail users email = some u) ↔ ∃ u ∈ users, u.email = email := by
  constructor
  · rintro ⟨u, hu⟩
    exact ⟨u, findByEmail_eq_some hu⟩
  · rintro ⟨u, hu, he⟩
    cases hf : findByEmail users email with
    | none => exact absurd he ((findByEmail_eq_none_iff users email).1 hf u hu)
    | some v => exact ⟨v, rfl⟩

theorem findById_eq_some {users : List User} {id : Option String} {u : User}
    (h : findById users id = some u) : u ∈ users ∧ id = some u.id := by
  refine ⟨List.mem_of_find?_eq_some h, ?_⟩
  have := List.find?_some h
  simpa [eq_comm] using this

/-! ## Registration -/

/-- C1. Registration is rejected (the answer is not 201) exactly when name,
email or password is missing or empty or a stored user has the submitted email,
and a rejected registration leaves both documents as they were. -/
theorem register_rejected_iff (bc : Bcrypt) (now : Nat) (st : Store) (body : Body) :
    ((register bc now st body).1.status ≠ 201 ↔
      ((body.name = none ∨ body.name = some "") ∨
        (body.email = none ∨ body.email = some "") ∨
        (body.password = none ∨ body.password = some "") ∨
        ∃ u ∈ st.users, u.email = body.email)) ∧
    ((register bc now st body).1.status = 201 ∨ (register bc now st body).2 = st) := by
  simp only [← truthy_eq_false_iff]
  unfold register
  by_cases hv : (!truthy body.email || !truthy body.password || !truthy body.name) = true
  · rw [if_pos hv]
    have hv2 : truthy body.name = false ∨ truthy body.email = false ∨
        truthy body.password = false := by
      simp only [Bool.or_eq_true, Bool.not_eq_true'] at hv
      tauto
    refine ⟨⟨fun _ => ?_, fun _ => by simp⟩, Or.inr rfl⟩
    tauto
  · rw [if_neg hv]
    simp only [Bool.or_eq_true, Bool.not_eq_true', not_or, Bool.not_eq_false] at hv
    obtain ⟨⟨he, hp⟩, hn⟩ := hv
    obtain ⟨p, hps, _⟩ := (truthy_eq_true_iff _).1 hp
    cases hf : findByEmail st.users body.email with
    | some v =>
      obtain ⟨hm, hve⟩ := findByEmail_eq_some hf
      refine ⟨⟨fun _ => Or.inr (Or.inr (Or.inr ⟨v, hm, hve⟩)), fun _ => by simp⟩, Or.inr rfl⟩
    | none =>
      have hno := (findByEmail_eq_none_iff _ _).1 hf
      have hh : bcryptHash bc body.password = some (bc.hash p) := by rw [hps]; rfl
      rw [hh]
      refine ⟨⟨fun h => absurd rfl h, ?_⟩, Or.inl rfl⟩
      rintro (h | h | h | ⟨u, hu, hue⟩)
      · rw [hn] at h; cases h
      · rw [he] at h; cases h
      · rw [hp] at h; cases h
      · exact absurd hue (hno u hu)

/-! ## Email uniqueness -/

theorem emailsUnique_append_iff (users : List User) (u : User) :
    EmailsUnique (users ++ [u]) ↔ EmailsUnique users ∧ ∀ v ∈ users, v.email ≠ u.email := by
  unfold EmailsUnique
  rw [List.map_append, List.nodup_append]
  simp only [List.map_cons, List.map_nil, List.nodup_singleton, true_and, List.disjoint_singleton,
    List.mem_map, not_exists, not_and]

theorem emailsUnique_append_of_findByEmail {users : List User} {u : User}
    (h : EmailsUnique users) (hf : findByEmail users u.email = none) :
    EmailsUnique (users ++ [u]) :=
  (emailsUnique_append_iff users u).2 ⟨h, (findByEmail_eq_none_iff users u.email).1 hf⟩

theorem map_email_set (users : List User) (i : Nat) (old new : User)
    (hi : users[i]? = some old) (he : new.email = old.email) :
    (users.set i new).map (fun u => u.email) = users.map (fun u => u.email) := by
  induction users generalizing i with
  | nil => rfl
  | cons x xs ih =>
    cases i with
    | zero =>
      simp only [List.getElem?_cons_zero, Option.some.injEq] at hi
      simp [List.set, he, hi]
    | succ j =>
      simp only [List.getElem?_cons_succ] at hi
      simp only [List.set, List.map_cons, ih j hi]

theorem map_email_updateFirst (p : User → Bool) (f : User → User)
    (hf : ∀ u, (f u).email = u.email) (users : List User) :
    (updateFirst p f users).map (fun u => u.email) = users.map (fun u => u.email) := by
  induction users with
  | nil => rfl
  | cons x xs ih =>
    unfold updateFirst
    by_cases hp : p x = true
    · simp [hp, hf]
    · simp [hp, ih]

theorem register_emailsUnique (bc : Bcrypt) (now : Nat) (st : Store) (body : Body)
    (h : EmailsUnique st.users) : EmailsUnique (register bc now st body).2.users := by
  unfold register
  split
  · exact h
  · split
    · exact h
    · rename_i hf
      split
      · exact h
      · exact emailsUnique_append_of_findByEmail h hf

theorem createEmployee_emailsUnique (bc : Bcrypt) (now : Nat) (st : Store) (user : User)
    (body : Body) (h : EmailsUnique st.users) :
    EmailsUnique (createEmployee bc now st user body).2.users := by
  unfold createEmployee
  split
  · exact h
  · split
    · exact h
    · rename_i hf
      split
      · exact h
      · exact emailsUnique_append_of_findByEmail h hf

theorem updateProfile_emailsUnique (st : Store) (user : User) (body : Body)
    (h : EmailsUnique st.users) : EmailsUnique (updateProfile st user body).2.users := by
  unfold updateProfile
  split
  · split
    · exact h
    · rename_i old hold
      show (List.map (fun u => u.email) (st.users.set _ _)).Nodup
      rw [map_email_set _ _ old _ hold]
      · exact h
      · rfl
  · exact h

theorem initializeSampleData_emailsUnique (bc : Bcrypt) (now : Nat) (st : Store)
    (h : EmailsUnique st.users) : EmailsUnique (initializeSampleData bc now st).users := by
  unfold initializeSampleData
  have h1 : EmailsUnique (match findByEmail st.users (some "admin@example.com") with
      | none => st.users ++ [sampleAdmin now]
      | some _ => st.users) := by
    split
    · rename_i hf
      exact emailsUnique_append_of_findByEmail (u := sampleAdmin now) h hf
    · exact h
  generalize (match findByEmail st.users (some "admin@example.com") with
      | none => st.users ++ [sampleAdmin now]
      | some _ => st.users) = users at h1
  simp only
  split
  · rename_i hf
    exact emailsUnique_append_of_findByEmail (u := sampleEmployee bc now) h1 hf
  · split
    · have key := map_email_updateFirst
        (fun u => decide (u.email = some "farhanibushe@gmail.com"))
        (fun u => { u with password := bc.hash "12345678", isActive := true })
        (fun _ => rfl) users
      show (List.map (fun u => u.email) (updateFirst _ _ users)).Nodup
      rw [key]
      exact h1
    · exact h1

/-- C2. Email uniqueness is preserved by register, createEmployee,
updateProfile and initializeSampleData, whatever the request is. -/
theorem emailsUnique_preserved (bc : Bcrypt) (now : Nat) (st : Store) (user : User)
    (body : Body) (h : EmailsUnique st.users) :
    EmailsUnique (register bc now st body).2.users ∧
    EmailsUnique (createEmployee bc now st user body).2.users ∧
    EmailsUnique (updateProfile st user body).2.users ∧
    EmailsUnique (initializeSampleData bc now st).users :=
  ⟨register_emailsUnique bc now st body h, createEmployee_emailsUnique bc now st user body h,
    updateProfile_emailsUnique st user body h, initializeSampleData_emailsUnique bc now st h⟩

theorem emailsUnique_preserved_witness :
    EmailsUnique [demoAdmin, demoEmployee] ∧
    EmailsUnique (register demoBcrypt 5 ⟨[demoAdmin, demoEmployee], []⟩
      { emptyBody with name := some "Bob", email := some "b@x.com",
                       password := some "pw" }).2.users ∧
    EmailsUnique (createEmployee demoBcrypt 5 ⟨[demoAdmin, demoEmployee], []⟩ demoAdmin
      { emptyBody with name := some "Bob", email := some "b@x.com",
                       password := some "pw" }).2.users ∧
    EmailsUnique (updateProfile ⟨[demoAdmin, demoEmployee], []⟩ demoAdmin
      { emptyBody with name := some "Bob", email := some "b@x.com",
                       password := some "pw" }).2.users ∧
    EmailsUnique (initializeSampleData demoBcrypt 5 ⟨[demoAdmin, demoEmployee], []⟩).users :=
  ⟨by decide, emailsUnique_preserved demoBcrypt 5 ⟨[demoAdmin, demoEmployee], []⟩ demoAdmin
    { emptyBody with name := some "Bob", email := some "b@x.com", password := some "pw" }
    (by decide)⟩

/-! ## Login -/

theorem findByEmail_of_mem_unique {users : List User} {u : User} (hmem : u ∈ users)
    (huniq : EmailsUnique users) : findByEmail users u.email = some u := by
  induction users with
  | nil => cases hmem
  | cons x xs ih =>
    unfold EmailsUnique at huniq
    rw [List.map_cons, List.nodup_cons] at huniq
    unfold findByEmail
    rcases List.mem_cons.1 hmem with rfl | hxs
    · simp
    · have hne : x.email ≠ u.email := by
        intro he
        exact huniq.1 (he ▸ List.mem_map_of_mem (fun v => v.email) hxs)
      rw [List.find?_cons_of_neg _ (by simpa using hne)]
      exact ih hxs huniq.2

/-- C3. A login with a known email and a wrong password and a login with an
email no user has are answered identically (status and message), for requests
that are equally well formed: 400 "Invalid credentials" when email and password
are both non-empty. -/
theorem login_wrong_password_same_as_unknown_email (bc : Bcrypt) (now₁ now₂ : Nat)
    (st₁ st₂ : Store) (b₁ b₂ : Body) (u : User)
    (hknown : findByEmail st₁.users b₁.email = some u)
    (hwrong : ∀ p, b₁.password = some p → bc.compare p u.password = false)
    (hunknown : findByEmail st₂.users b₂.email = none)
    (hemail : truthy b₁.email = truthy b₂.email)
    (hpassword : truthy b₁.password = truthy b₂.password) :
    (login bc now₁ st₁ b₁).1 = (login bc now₂ st₂ b₂).1 ∧
    (login bc now₁ st₁ b₁).1 =
      (if (truthy b₁.email && truthy b₁.password) = true then
        ⟨400, .message "Invalid credentials"⟩
      else ⟨400, .message "Missing required fields: email, password"⟩) := by
  unfold login
  rw [hknown, hunknown, ← hemail, ← hpassword]
  by_cases hv : (!truthy b₁.email || !truthy b₁.password) = true
  · have hv2 : ¬ ((truthy b₁.email && truthy b₁.password) = true) := by
      simp only [Bool.or_eq_true, Bool.not_eq_true'] at hv
      simp only [Bool.and_eq_true, not_and, Bool.not_eq_true]
      rcases hv with h | h
      · intro h2; rw [h] at h2; cases h2
      · intro _; exact h
    rw [if_pos hv, if_pos hv, if_neg hv2]
    exact ⟨rfl, rfl⟩
  · have hv2 : (truthy b₁.email && truthy b₁.password) = true := by
      simp only [Bool.or_eq_true, Bool.not_eq_true', not_or, Bool.not_eq_false] at hv
      simp [hv.1, hv.2]
    rw [if_neg hv, if_neg hv, if_pos hv2]
    dsimp only
    simp only [Bool.and_eq_true] at hv2
    obtain ⟨p, hp, _⟩ := (truthy_eq_true_iff _).1 hv2.2
    have hc : bcryptCompare bc b₁.password u.password = some false := by
      rw [hp]
      show some (bc.compare p u.password) = some false
      rw [hwrong p hp]
    rw [hc]
    exact ⟨rfl, rfl⟩

theorem login_wrong_password_same_as_unknown_email_witness :
    (login demoBcrypt 9 ⟨[demoAdmin, demoEmployee], []⟩
        { emptyBody with email := some "e@x.com", password := some "guess" }).1 =
      (login demoBcrypt 9 ⟨[demoAdmin, demoEmployee], []⟩
        { emptyBody with email := some "nobody@x.com", password := some "guess" }).1 ∧
    (login demoBcrypt 9 ⟨[demoAdmin, demoEmployee], []⟩
        { emptyBody with email := some "e@x.com", password := some "guess" }).1 =
      ⟨400, .message "Invalid credentials"⟩ :=
  login_wrong_password_same_as_unknown_email demoBcrypt 9 9 ⟨[demoAdmin, demoEmployee], []⟩
    ⟨[demoAdmin, demoEmployee], []⟩
    { emptyBody with email := some "e@x.com", password := some "guess" }
    { emptyBody with email := some "nobody@x.com", password := some "guess" }
    demoEmployee (by decide) (by intro p hp; cases hp; decide) (by decide) (by decide)
    (by decide)

/-- C4. A stored user whose isActive is false cannot log in: with that user's
(non-empty) email and the correct (non-empty) password the answer is 400
"Account is deactivated", which carries no token, and nothing is written. -/
theorem login_deactivated (bc : Bcrypt) (now : Nat) (st : Store) (body : Body) (u : User)
    (p : String) (hmem : u ∈ st.users) (huniq : EmailsUnique st.users)
    (hemail : body.email = u.email) (hne : truthy body.email = true)
    (hpw : body.password = some p) (hp : p ≠ "")
    (hcorrect : bc.compare p u.password = true) (hinactive : u.isActive = false) :
    login bc now st body = (⟨400, .message "Account is deactivated"⟩, st) := by
  have hfind : findByEmail st.users body.email = some u := by
    rw [hemail]
    exact findByEmail_of_mem_unique hmem huniq
  have htp : truthy body.password = true := (truthy_eq_true_iff _).2 ⟨p, hpw, hp⟩
  have hc : bcryptCompare bc body.password u.password = some true := by
    rw [hpw]
    show some (bc.compare p u.password) = some true
    rw [hcorrect]
  unfold login
  rw [hne, htp, hfind]
  dsimp only
  rw [hc, hinactive]
  rfl

theorem login_deactivated_witness :
    login demoBcrypt 9 ⟨[demoAdmin, { demoEmployee with isActive := false }], []⟩
        { emptyBody with email := some "e@x.com", password := some "pass" } =
      (⟨400, .message "Account is deactivated"⟩,
        ⟨[demoAdmin, { demoEmployee with isActive := false }], []⟩) :=
  login_deactivated demoBcrypt 9 ⟨[demoAdmin, { demoEmployee with isActive := false }], []⟩
    { emptyBody with email := some "e@x.com", password := some "pass" }
    { demoEmployee with isActive := false } "pass" (by decide) (by decide) (by decide)
    (by decide) (by decide) (by decide) (by decide) (by decide)

/-- Whatever the request, a login that resolves to a user whose isActive is
false is never answered 200. -/
theorem login_inactive_not_ok (bc : Bcrypt) (now : Nat) (st : Store) (body : Body) (u : User)
    (hfind : findByEmail st.users body.email = some u) (hinactive : u.isActive = false) :
    (login bc now st body).1.status ≠ 200 ∧ (login bc now st body).2 = st := by
  unfold login
  rw [hfind]
  dsimp only
  rw [hinactive]
  split
  · exact ⟨by simp, rfl⟩
  · split
    · exact ⟨by simp, rfl⟩
    · exact ⟨by simp, rfl⟩
    · exact ⟨by simp, rfl⟩

/-! ## Successful registration -/

/-- C5. A registration answered 201 appends exactly one record, whose role is
the submitted role (employee when the role is omitted, or empty), whose
password is the bcrypt hash of the submitted password and whose isActive is
true; the answer carries the summary of that record, which has no password
field and does not depend on the hash function, and a token whose userId is
the new record's id. -/
theorem register_success (bc : Bcrypt) (now : Nat) (st : Store) (body : Body)
    (h : (register bc now st body).1.status = 201) :
    ∃ (newUser : User) (p : String) (token : Token),
      (register bc now st body).2 = { users := st.users ++ [newUser], tasks := st.tasks } ∧
      newUser.role = (match body.role with
        | none => "employee"
        | some r => if r = "" then "employee" else r) ∧
      body.password = some p ∧ newUser.password = bc.hash p ∧
      newUser.isActive = true ∧
      newUser.name = body.name ∧ newUser.email = body.email ∧
      (register bc now st body).1.body =
        .auth "User registered successfully" token newUser.summary ∧
      token.userId = newUser.id ∧
      ∀ bc2 : Bcrypt, (register bc2 now st body).1 = (register bc now st body).1 := by
  unfold register at h ⊢
  by_cases hv : (!truthy body.email || !truthy body.password || !truthy body.name) = true
  · rw [if_pos hv] at h
    simp at h
  · rw [if_neg hv] at h ⊢
    simp only [Bool.or_eq_true, Bool.not_eq_true', not_or, Bool.not_eq_false] at hv
    obtain ⟨p, hps, _⟩ := (truthy_eq_true_iff _).1 hv.1.2
    cases hf : findByEmail st.users body.email with
    | some v =>
      rw [hf] at h
      simp at h
    | none =>
      have hh : ∀ b : Bcrypt, bcryptHash b body.password = some (b.hash p) := by
        intro b; rw [hps]; rfl
      rw [hh bc]
      refine ⟨_, p, _, rfl, ?_, hps, rfl, rfl, rfl, rfl, rfl, rfl, ?_⟩
      · unfold orDefault
        rfl
      · intro bc2
        rw [if_neg (by simp [hv.1.1, hv.1.2, hv.2]), hh bc2]
        rfl

theorem register_success_witness :
    ∃ (newUser : User) (p : String) (token : Token),
      (register demoBcrypt 5 ⟨[demoAdmin], []⟩
        { emptyBody with name := some "Bob", email := some "b@x.com",
                         password := some "pw" }).2 =
        { users := [demoAdmin] ++ [newUser], tasks := [] } ∧
      newUser.role = "employee" ∧
      some "pw" = some p ∧ newUser.password = demoBcrypt.hash p ∧
      newUser.isActive = true ∧
      newUser.name = some "Bob" ∧ newUser.email = some "b@x.com" ∧
      (register demoBcrypt 5 ⟨[demoAdmin], []⟩
        { emptyBody with name := some "Bob", email := some "b@x.com",
                         password := some "pw" }).1.body =
        .auth "User registered successfully" token newUser.summary ∧
      token.userId = newUser.id ∧
      ∀ bc2 : Bcrypt, (register bc2 5 ⟨[demoAdmin], []⟩
        { emptyBody with name := some "Bob", email := some "b@x.com",
                         password := some "pw" }).1 =
        (register demoBcrypt 5 ⟨[demoAdmin], []⟩
          { emptyBody with name := some "Bob", email := some "b@x.com",
                           password := some "pw" }).1 :=
  register_success demoBcrypt 5 ⟨[demoAdmin], []⟩
    { emptyBody with name := some "Bob", email := some "b@x.com", password := some "pw" }
    (by decide)

/-! ## Employee creation against registration -/

/-- When name, email and password are all non-empty, an administrator's
createEmployee and register with the role set to employee accept or reject
together and leave the same documents. -/
theorem createEmployee_eq_register_of_valid (bc : Bcrypt) (now : Nat) (st : Store)
    (user : User) (body : Body) (hadmin : user.role = "admin")
    (hname : truthy body.name = true) (hemail : truthy body.email = true)
    (hpassword : truthy body.password = true) :
    (createEmployee bc now st user body).2 =
      (register bc now st { body with role := some "employee" }).2 ∧
    ((createEmployee bc now st user body).1.status = 201 ↔
      (register bc now st { body with role := some "employee" }).1.status = 201) := by
  unfold createEmployee register
  simp only [hadmin, hname, hemail, hpassword]
  cases findByEmail st.users body.email with
  | some v => simp
  | none =>
    cases bcryptHash bc body.password with
    | none => simp
    | some hp => simp [orDefault]

/-- C6. With no name in the body, register (role employee) answers 400 and
stores nothing, while createEmployee answers 201 and stores a record without a
name: createEmployee does not validate the required fields. -/
theorem createEmployee_accepts_missing_name :
    (register demoBcrypt 5 ⟨[demoAdmin], []⟩
      { emptyBody with email := some "b@x.com", password := some "pw",
                       role := some "employee" }) =
      (⟨400, .message "Missing required fields: name, email, password"⟩, ⟨[demoAdmin], []⟩) ∧
    (createEmployee demoBcrypt 5 ⟨[demoAdmin], []⟩ demoAdmin
      { emptyBody with email := some "b@x.com", password := some "pw",
                       role := some "employee" }).1.status = 201 ∧
    (createEmployee demoBcrypt 5 ⟨[demoAdmin], []⟩ demoAdmin
      { emptyBody with email := some "b@x.com", password := some "pw",
                       role := some "employee" }).2.users =
      [demoAdmin,
        { id := "5", name := none, email := some "b@x.com", password := "hashed:pw",
          role := "employee", phone := none, department := none, position := none,
          isActive := true, createdAt := 5 }] := by
  decide

/-! ## Access policy -/

/-- C7. For a caller whose role is not admin, each admin-only operation
(dashboard, list employees, create employee, list all tasks, create task,
update task, delete task) answers 403 "Access denied" and leaves both documents
as they were. -/
theorem admin_only_forbidden (bc : Bcrypt) (parseDate : String → Option Nat) (now : Nat)
    (st : Store) (user : User) (id : String) (body : Body) (h : user.role ≠ "admin") :
    adminDashboard st user = (⟨403, .message "Access denied"⟩, st) ∧
    listEmployees st user = (⟨403, .message "Access denied"⟩, st) ∧
    createEmployee bc now st user body = (⟨403, .message "Access denied"⟩, st) ∧
    listAllTasks st user = (⟨403, .message "Access denied"⟩, st) ∧
    createTask parseDate now st user body = (⟨403, .message "Access denied"⟩, st) ∧
    updateTask parseDate now st user id body = (⟨403, .message "Access denied"⟩, st) ∧
    deleteTask st user id = (⟨403, .message "Access denied"⟩, st) := by
  have hc : (user.role != "admin") = true := by simpa using h
  refine ⟨?_, ?_, ?_, ?_, ?_, ?_, ?_⟩
  · unfold adminDashboard; rw [if_pos hc]
  · unfold listEmployees; rw [if_pos hc]
  · unfold createEmployee; rw [if_pos hc]
  · unfold listAllTasks; rw [if_pos hc]
  · unfold createTask; rw [if_pos hc]
  · unfold updateTask; rw [if_pos hc]
  · unfold deleteTask; rw [if_pos hc]

theorem admin_only_forbidden_witness :
    adminDashboard demoStore demoEmployee = (⟨403, .message "Access denied"⟩, demoStore) ∧
    listEmployees demoStore demoEmployee = (⟨403, .message "Access denied"⟩, demoStore) ∧
    createEmployee demoBcrypt 9 demoStore demoEmployee
        { emptyBody with name := some "Bob", email := some "b@x.com",
                         password := some "pw" } =
      (⟨403, .message "Access denied"⟩, demoStore) ∧
    listAllTasks demoStore demoEmployee = (⟨403, .message "Access denied"⟩, demoStore) ∧
    createTask (fun _ => none) 9 demoStore demoEmployee
        { emptyBody with name := some "Bob", email := some "b@x.com",
                         password := some "pw" } =
      (⟨403, .message "Access denied"⟩, demoStore) ∧
    updateTask (fun _ => none) 9 demoStore demoEmployee "t1"
        { emptyBody with name := some "Bob", email := some "b@x.com",
                         password := some "pw" } =
      (⟨403, .message "Access denied"⟩, demoStore) ∧
    deleteTask demoStore demoEmployee "t1" = (⟨403, .message "Access denied"⟩, demoStore) :=
  admin_only_forbidden demoBcrypt (fun _ => none) 9 demoStore demoEmployee "t1"
    { emptyBody with name := some "Bob", email := some "b@x.com", password := some "pw" }
    (by decide)

theorem accessDenied_eq_false_iff (user : User) (t : Task) :
    accessDenied user t = false ↔ (user.role = "admin" ∨ t.assignedTo = user.id) := by
  unfold accessDenied
  by_cases h1 : user.role = "admin" <;> by_cases h2 : t.assignedTo = user.id <;> simp [h1, h2]

theorem accessDenied_eq_true_iff (user : User) (t : Task) :
    accessDenied user t = true ↔ ¬ (user.role = "admin" ∨ t.assignedTo = user.id) := by
  rw [← accessDenied_eq_false_iff]
  simp

theorem findIdx?_of_find? {α : Type} (p : α → Bool) (l : List α) (t : α)
    (h : l.find? p = some t) : ∃ i, l.findIdx? p = some i ∧ l[i]? = some t := by
  induction l with
  | nil => cases h
  | cons x xs ih =>
    by_cases hp : p x = true
    · rw [List.find?_cons_of_pos _ hp] at h
      cases h
      exact ⟨0, by simp [List.findIdx?_cons, hp], by simp⟩
    · rw [List.find?_cons_of_neg _ hp] at h
      obtain ⟨i, hi, ht⟩ := ih h
      refine ⟨i + 1, ?_, by simpa using ht⟩
      rw [List.findIdx?_cons, if_neg hp, List.findIdx?_succ, hi]
      rfl

theorem getTask_of_find {st : Store} {id : String} {t : Task} (user : User)
    (hfind : st.tasks.find? (fun t => t.hasId id) = some t) :
    getTask st user id =
      if accessDenied user t = true then (⟨403, .message "Access denied"⟩, st)
      else (⟨200, .task (t.view (orNull (findById st.users (some t.assignedTo)))
        (orNull (findById st.users (some t.assignedBy))))⟩, st) := by
  unfold getTask
  rw [hfind]

theorem listAttachments_of_find {st : Store} {id : String} {t : Task} (user : User)
    (hfind : st.tasks.find? (fun t => t.hasId id) = some t) :
    listAttachments st user id =
      if accessDenied user t = true then (⟨403, .message "Access denied"⟩, st)
      else (⟨200, .attachments t.attachmentList⟩, st) := by
  unfold listAttachments
  rw [hfind]

theorem uploadAttachment_of_find {st : Store} {id : String} {t : Task} (now : Nat)
    (user : User) (file : Option UploadedFile)
    (hfind : st.tasks.find? (fun t => t.hasId id) = some t) :
    (accessDenied user t = true ∧
      uploadAttachment now st user id file = (⟨403, .message "Access denied"⟩, st)) ∨
    (accessDenied user t = false ∧ file = none ∧
      uploadAttachment now st user id file = (⟨400, .message "No file uploaded"⟩, st)) ∨
    (accessDenied user t = false ∧ ∃ f i, file = some f ∧ st.tasks[i]? = some t ∧
      uploadAttachment now st user id file =
        (⟨201, .uploaded "File uploaded successfully"
            ⟨f.filename, f.originalname, f.mimetype, f.size, now, user.id⟩⟩,
          { st with tasks := st.tasks.set i { t with attachments := some (t.attachmentList ++
            [⟨f.filename, f.originalname, f.mimetype, f.size, now, user.id⟩]) } })) := by
  obtain ⟨i, hi, ht⟩ := findIdx?_of_find? _ _ _ hfind
  unfold uploadAttachment
  rw [hi]
  dsimp only
  rw [ht]
  dsimp only
  by_cases hd : accessDenied user t = true
  · left
    rw [if_pos hd]
    exact ⟨hd, rfl⟩
  · right
    rw [if_neg hd]
    have hd2 : accessDenied user t = false := by simpa using hd
    cases file with
    | none => exact Or.inl ⟨hd2, rfl, rfl⟩
    | some f => exact Or.inr ⟨hd2, f, i, rfl, ht, rfl⟩

theorem downloadAttachment_of_find {st : Store} {id : String} {t : Task}
    (onDisk : String → Bool) (user : User) (filename : String)
    (hfind : st.tasks.find? (fun t => t.hasId id) = some t) :
    (accessDenied user t = true ∧
      downloadAttachment onDisk st user id filename = (⟨403, .message "Access denied"⟩, st)) ∨
    (accessDenied user t = false ∧
      ((downloadAttachment onDisk st user id filename).1.status = 404 ∨
        (downloadAttachment onDisk st user id filename).1.status = 200) ∧
      (downloadAttachment onDisk st user id filename).2 = st) := by
  unfold downloadAttachment
  rw [hfind]
  dsimp only
  by_cases hd : accessDenied user t = true
  · left
    rw [if_pos hd]
    exact ⟨hd, rfl⟩
  · right
    rw [if_neg hd]
    have hd2 : accessDenied user t = false := by simpa using hd
    refine ⟨hd2, ?_⟩
    split
    · exact ⟨Or.inl rfl, rfl⟩
    · split
      · exact ⟨Or.inl rfl, rfl⟩
      · exact ⟨Or.inr rfl, rfl⟩

/-- C8. For a task the lookup by id resolves to, get-task, list-attachments,
upload-attachment and download-attachment are permitted (not answered 403)
exactly when the caller is an admin or the task's assignee; a permitted
get-task or list-attachments answers 200 and a permitted upload of a file 201;
when not permitted each answers 403 "Access denied" and nothing is written. -/
theorem task_access_iff (onDisk : String → Bool) (now : Nat) (st : Store) (user : User)
    (id : String) (file : Option UploadedFile) (f : UploadedFile) (filename : String)
    (t : Task) (hfind : st.tasks.find? (fun t => t.hasId id) = some t) :
    ((getTask st user id).1.status ≠ 403 ↔
      (user.role = "admin" ∨ t.assignedTo = user.id)) ∧
    ((listAttachments st user id).1.status ≠ 403 ↔
      (user.role = "admin" ∨ t.assignedTo = user.id)) ∧
    ((uploadAttachment now st user id file).1.status ≠ 403 ↔
      (user.role = "admin" ∨ t.assignedTo = user.id)) ∧
    ((downloadAttachment onDisk st user id filename).1.status ≠ 403 ↔
      (user.role = "admin" ∨ t.assignedTo = user.id)) ∧
    ((getTask st user id).1.status = 200 ↔
      (user.role = "admin" ∨ t.assignedTo = user.id)) ∧
    ((listAttachments st user id).1.status = 200 ↔
      (user.role = "admin" ∨ t.assignedTo = user.id)) ∧
    ((uploadAttachment now st user id (some f)).1.status = 201 ↔
      (user.role = "admin" ∨ t.assignedTo = user.id)) ∧
    ((user.role = "admin" ∨ t.assignedTo = user.id) ∨
      (getTask st user id = (⟨403, .message "Access denied"⟩, st) ∧
        listAttachments st user id = (⟨403, .message "Access denied"⟩, st) ∧
        uploadAttachment now st user id file = (⟨403, .message "Access denied"⟩, st) ∧
        downloadAttachment onDisk st user id filename =
          (⟨403, .message "Access denied"⟩, st))) := by
  rw [getTask_of_find user hfind, listAttachments_of_find user hfind]
  have hup := uploadAttachment_of_find now user file hfind
  have hupf := uploadAttachment_of_find now user (some f) hfind
  have hdown := downloadAttachment_of_find onDisk user filename hfind
  by_cases hd : accessDenied user t = true
  · have hperm : ¬ (user.role = "admin" ∨ t.assignedTo = user.id) :=
      (accessDenied_eq_true_iff user t).1 hd
    have hup2 : uploadAttachment now st user id file =
        (⟨403, .message "Access denied"⟩, st) := by
      rcases hup with h | h | h
      · exact h.2
      · rw [h.1] at hd; cases hd
      · rw [h.1] at hd; cases hd
    have hupf2 : uploadAttachment now st user id (some f) =
        (⟨403, .message "Access denied"⟩, st) := by
      rcases hupf with h | h | h
      · exact h.2
      · rw [h.1] at hd; cases hd
      · rw [h.1] at hd; cases hd
    have hdown2 : downloadAttachment onDisk st user id filename =
        (⟨403, .message "Access denied"⟩, st) := by
      rcases hdown with h | h
      · exact h.2
      · rw [h.1] at hd; cases hd
    rw [if_pos hd, if_pos hd, hup2, hupf2, hdown2]
    simp [hperm]
  · have hd2 : accessDenied user t = false := by simpa using hd
    have hperm : user.role = "admin" ∨ t.assignedTo = user.id :=
      (accessDenied_eq_false_iff user t).1 hd2
    have hup2 : (uploadAttachment now st user id file).1.status ≠ 403 := by
      rcases hup with h | h | h
      · exact absurd h.1 hd
      · rw [h.2.2]; simp
      · obtain ⟨_, g, i, _, _, he⟩ := h
        rw [he]; simp
    have hupf2 : (uploadAttachment now st user id (some f)).1.status = 201 := by
      rcases hupf with h | h | h
      · exact absurd h.1 hd
      · exact absurd h.2.1 (by simp)
      · obtain ⟨_, g, i, _, _, he⟩ := h
        rw [he]
    have hdown2 : (downloadAttachment onDisk st user id filename).1.status ≠ 403 := by
      rcases hdown with h | h
      · exact absurd h.1 hd
      · rcases h.2.1 with h4 | h2
        · rw [h4]; simp
        · rw [h2]; simp
    rw [if_neg hd, if_neg hd]
    simp [hperm, hup2, hupf2, hdown2]

theorem task_access_iff_witness :
    ((getTask demoStore otherEmployee "t1").1.status ≠ 403 ↔
      (otherEmployee.role = "admin" ∨ demoTask.assignedTo = otherEmployee.id)) ∧
    ((listAttachments demoStore otherEmployee "t1").1.status ≠ 403 ↔
      (otherEmployee.role = "admin" ∨ demoTask.assignedTo = otherEmployee.id)) ∧
    ((uploadAttachment 9 demoStore otherEmployee "t1" none).1.status ≠ 403 ↔
      (otherEmployee.role = "admin" ∨ demoTask.assignedTo = otherEmployee.id)) ∧
    ((downloadAttachment (fun _ => true) demoStore otherEmployee "t1"
        "7-1-notes.txt").1.status ≠ 403 ↔
      (otherEmployee.role = "admin" ∨ demoTask.assignedTo = otherEmployee.id)) ∧
    ((getTask demoStore otherEmployee "t1").1.status = 200 ↔
      (otherEmployee.role = "admin" ∨ demoTask.assignedTo = otherEmployee.id)) ∧
    ((listAttachments demoStore otherEmployee "t1").1.status = 200 ↔
      (otherEmployee.role = "admin" ∨ demoTask.assignedTo = otherEmployee.id)) ∧
    ((uploadAttachment 9 demoStore otherEmployee "t1" (some demoFile)).1.status = 201 ↔
      (otherEmployee.role = "admin" ∨ demoTask.assignedTo = otherEmployee.id)) ∧
    ((otherEmployee.role = "admin" ∨ demoTask.assignedTo = otherEmployee.id) ∨
      (getTask demoStore otherEmployee "t1" = (⟨403, .message "Access denied"⟩, demoStore) ∧
        listAttachments demoStore otherEmployee "t1" =
          (⟨403, .message "Access denied"⟩, demoStore) ∧
        uploadAttachment 9 demoStore otherEmployee "t1" none =
          (⟨403, .message "Access denied"⟩, demoStore) ∧
        downloadAttachment (fun _ => true) demoStore otherEmployee "t1" "7-1-notes.txt" =
          (⟨403, .message "Access denied"⟩, demoStore))) :=
  task_access_iff (fun _ => true) 9 demoStore otherEmployee "t1" none demoFile
    "7-1-notes.txt" demoTask (by decide)

/-! ## Status update by the assignee -/

theorem hasId_eq_true_iff (t : Task) (id : String) :
    t.hasId id = true ↔ (t.id = id ∨ t._id = some id) := by
  simp [Task.hasId]

theorem updateStatus_of_none (now : Nat) (st : Store) (user : User) (id : String)
    (body : Body)
    (h : ∀ t ∈ st.tasks, (t.id = id ∨ t._id = some id) → t.assignedTo ≠ user.id) :
    updateStatus now st user id body = (⟨404, .message "Task not found"⟩, st) := by
  have hnone : st.tasks.findIdx?
      (fun t => t.hasId id && decide (t.assignedTo = user.id)) = none := by
    rw [List.findIdx?_eq_none_iff]
    intro t ht
    by_cases hid : t.hasId id = true
    · have := h t ht ((hasId_eq_true_iff t id).1 hid)
      simp [this]
    · simp [hid]
  unfold updateStatus
  rw [hnone]

theorem updateStatus_of_some (now : Nat) (st : Store) (user : User) (id : String)
    (body : Body) (t : Task) (ht : t ∈ st.tasks) (hid : t.id = id ∨ t._id = some id)
    (hassigned : t.assignedTo = user.id) :
    (updateStatus now st user id body).1 =
      ⟨200, .message "Task status updated successfully"⟩ := by
  have hex : ∃ x, st.tasks.find?
      (fun t => t.hasId id && decide (t.assignedTo = user.id)) = some x := by
    cases hf : st.tasks.find? (fun t => t.hasId id && decide (t.assignedTo = user.id)) with
    | some x => exact ⟨x, rfl⟩
    | none =>
      rw [List.find?_eq_none] at hf
      have := hf t ht
      simp [(hasId_eq_true_iff t id).2 hid, hassigned] at this
  obtain ⟨x, hx⟩ := hex
  obtain ⟨i, hi, hget⟩ := findIdx?_of_find? _ _ _ hx
  unfold updateStatus
  rw [hi]
  dsimp only
  rw [hget]

/-- C10. When no task with the given id is assigned to the caller (the id is
unknown, or every task with that id is assigned to someone else), updateStatus
answers 404 "Task not found" and the task document, and the user document, are
exactly as before. -/
theorem updateStatus_not_assigned (now : Nat) (st : Store) (user : User) (id : String)
    (body : Body)
    (h : ∀ t ∈ st.tasks, (t.id = id ∨ t._id = some id) → t.assignedTo ≠ user.id) :
    updateStatus now st user id body = (⟨404, .message "Task not found"⟩, st) := by
  have hnone : st.tasks.findIdx?
      (fun t => t.hasId id && decide (t.assignedTo = user.id)) = none := by
    rw [List.findIdx?_eq_none_iff]
    intro t ht
    by_cases hid : t.hasId id = true
    · have hne := h t ht ((hasId_eq_true_iff t id).1 hid)
      simp [hne]
    · simp [hid]
  unfold updateStatus
  rw [hnone]

theorem updateStatus_not_assigned_witness :
    updateStatus 9 demoStore otherEmployee "t1" { emptyBody with status := some "completed" } =
      (⟨404, .message "Task not found"⟩, demoStore) :=
  updateStatus_not_assigned 9 demoStore otherEmployee "t1"
    { emptyBody with status := some "completed" } (by decide)

/-! ## Administrators on the employee routes -/

/-- C9, as stated, fails: the demo administrator asks for a status update of an
existing task that is assigned to the demo employee and is answered 404. -/
theorem admin_updateStatus_not_found :
    demoAdmin.role = "admin" ∧
    demoStore.tasks.find? (fun t => t.hasId "t1") = some demoTask ∧
    demoTask.assignedTo ≠ demoAdmin.id ∧
    updateStatus 9 demoStore demoAdmin "t1" { emptyBody with status := some "in_progress" } =
      (⟨404, .message "Task not found"⟩, demoStore) := by
  decide

/-- C9, amended. For a task the lookup by id resolves to and a caller whose
role is admin: view task and list attachments answer 200, upload of a file
answers 201 and download is never answered 403, whoever the task is assigned
to. The status update has no such bypass: it answers 200 exactly when a task
with that id is assigned to the caller, and otherwise 404 with nothing
written. -/
theorem admin_bypass (onDisk : String → Bool) (now : Nat) (st : Store) (user : User)
    (id : String) (f : UploadedFile) (filename : String) (body : Body) (t : Task)
    (hfind : st.tasks.find? (fun t => t.hasId id) = some t) (hadmin : user.role = "admin") :
    getTask st user id =
      (⟨200, .task (t.view (orNull (findById st.users (some t.assignedTo)))
        (orNull (findById st.users (some t.assignedBy))))⟩, st) ∧
    listAttachments st user id = (⟨200, .attachments t.attachmentList⟩, st) ∧
    (uploadAttachment now st user id (some f)).1 =
      ⟨201, .uploaded "File uploaded successfully"
        ⟨f.filename, f.originalname, f.mimetype, f.size, now, user.id⟩⟩ ∧
    (downloadAttachment onDisk st user id filename).1.status ≠ 403 ∧
    ((updateStatus now st user id body).1.status = 200 ↔
      ∃ s ∈ st.tasks, (s.id = id ∨ s._id = some id) ∧ s.assignedTo = user.id) ∧
    ((∃ s ∈ st.tasks, (s.id = id ∨ s._id = some id) ∧ s.assignedTo = user.id) ∨
      updateStatus now st user id body = (⟨404, .message "Task not found"⟩, st)) := by
  have hd : accessDenied user t = false :=
    (accessDenied_eq_false_iff user t).2 (Or.inl hadmin)
  have hd2 : ¬ accessDenied user t = true := by simp [hd]
  refine ⟨?_, ?_, ?_, ?_, ?_, ?_⟩
  · rw [getTask_of_find user hfind, if_neg hd2]
  · rw [listAttachments_of_find user hfind, if_neg hd2]
  · rcases uploadAttachment_of_find now user (some f) hfind with h | h | h
    · exact absurd h.1 hd2
    · exact absurd h.2.1 (by simp)
    · obtain ⟨_, g, i, hg, _, he⟩ := h
      cases hg
      rw [he]
  · rcases downloadAttachment_of_find onDisk user filename hfind with h | h
    · exact absurd h.1 hd2
    · rcases h.2.1 with h4 | h2
      · rw [h4]; simp
      · rw [h2]; simp
  · constructor
    · intro hs
      by_contra hno
      have h404 := updateStatus_of_none now st user id body (by
        intro s hs1 hs2 hs3
        exact hno ⟨s, hs1, hs2, hs3⟩)
      rw [h404] at hs
      simp at hs
    · rintro ⟨s, hs1, hs2, hs3⟩
      rw [updateStatus_of_some now st user id body s hs1 hs2 hs3]
  · by_cases hex : ∃ s ∈ st.tasks, (s.id = id ∨ s._id = some id) ∧ s.assignedTo = user.id
    · exact Or.inl hex
    · right
      apply updateStatus_of_none
      intro s hs1 hs2 hs3
      exact hex ⟨s, hs1, hs2, hs3⟩

theorem admin_bypass_witness :
    getTask demoStore demoAdmin "t1" =
      (⟨200, .task (demoTask.view (orNull (findById demoStore.users (some demoTask.assignedTo)))
        (orNull (findById demoStore.users (some demoTask.assignedBy))))⟩, demoStore) ∧
    listAttachments demoStore demoAdmin "t1" =
      (⟨200, .attachments demoTask.attachmentList⟩, demoStore) ∧
    (uploadAttachment 9 demoStore demoAdmin "t1" (some demoFile)).1 =
      ⟨201, .uploaded "File uploaded successfully"
        ⟨demoFile.filename, demoFile.originalname, demoFile.mimetype, demoFile.size, 9,
          demoAdmin.id⟩⟩ ∧
    (downloadAttachment (fun _ => true) demoStore demoAdmin "t1" "7-1-notes.txt").1.status ≠
      403 ∧
    ((updateStatus 9 demoStore demoAdmin "t1"
        { emptyBody with status := some "in_progress" }).1.status = 200 ↔
      ∃ s ∈ demoStore.tasks, (s.id = "t1" ∨ s._id = some "t1") ∧
        s.assignedTo = demoAdmin.id) ∧
    ((∃ s ∈ demoStore.tasks, (s.id = "t1" ∨ s._id = some "t1") ∧
        s.assignedTo = demoAdmin.id) ∨
      updateStatus 9 demoStore demoAdmin "t1" { emptyBody with status := some "in_progress" } =
        (⟨404, .message "Task not found"⟩, demoStore)) :=
  admin_bypass (fun _ => true) 9 demoStore demoAdmin "t1" demoFile "7-1-notes.txt"
    { emptyBody with status := some "in_progress" } demoTask (by decide) (by decide)

/-! ## Task creation -/

theorem not_admin_test {user : User} (hadmin : user.role = "admin") :
    ¬ (user.role != "admin") = true := by
  simp [hadmin]

theorem findById_eq_none_iff (users : List User) (id : Option String) :
    findById users id = none ↔ ∀ u ∈ users, some u.id ≠ id := by
  simp [findById]

theorem createTask_of_unknown {parseDate : String → Option Nat} {now : Nat} {st : Store}
    {user : User} {body : Body} (hadmin : user.role = "admin")
    (hf : findById st.users body.assignedTo = none) :
    createTask parseDate now st user body =
      (⟨400, .employeeNotFound "Employee not found. Please select a valid employee."
        ((st.users.filter (fun u => decide (u.role = "employee"))).map
          (fun u => (u.id, u.name)))⟩, st) := by
  unfold createTask
  rw [if_neg (not_admin_test hadmin), hf]

theorem createTask_of_not_employee {parseDate : String → Option Nat} {now : Nat} {st : Store}
    {user : User} {body : Body} {u : User} (hadmin : user.role = "admin")
    (hf : findById st.users body.assignedTo = some u) (hr : u.role ≠ "employee") :
    createTask parseDate now st user body =
      (⟨400, .message "Selected user is not an employee"⟩, st) := by
  unfold createTask
  rw [if_neg (not_admin_test hadmin), hf]
  dsimp only
  rw [if_pos (by simpa using hr)]

theorem createTask_of_bad_date {parseDate : String → Option Nat} {now : Nat} {st : Store}
    {user : User} {body : Body} {u : User} (hadmin : user.role = "admin")
    (hf : findById st.users body.assignedTo = some u) (hr : u.role = "employee")
    (hd : dueDateOf parseDate body.dueDate = none) :
    createTask parseDate now st user body = (⟨500, .message "Something went wrong!"⟩, st) := by
  unfold createTask
  rw [if_neg (not_admin_test hadmin), hf]
  dsimp only
  rw [if_neg (by simp [hr]), hd]

theorem createTask_of_ok {parseDate : String → Option Nat} {now : Nat} {st : Store}
    {user : User} {body : Body} {u : User} {d : Option Nat} (hadmin : user.role = "admin")
    (hf : findById st.users body.assignedTo = some u) (hr : u.role = "employee")
    (hd : dueDateOf parseDate body.dueDate = some d) :
    createTask parseDate now st user body =
      (⟨201, .taskMessage "Task created successfully"
          (Task.view
            { id := toString now, _id := none, title := body.title,
              description := body.description, assignedTo := u.id, assignedBy := user.id,
              status := some "pending", priority := orDefault body.priority "medium",
              dueDate := d, createdAt := now, completedAt := none, notes := [],
              attachments := some [] }
            (.user u) (.id user.id))⟩,
        { users := st.users,
          tasks := st.tasks ++
            [{ id := toString now, _id := none, title := body.title,
               description := body.description, assignedTo := u.id, assignedBy := user.id,
               status := some "pending", priority := orDefault body.priority "medium",
               dueDate := d, createdAt := now, completedAt := none, notes := [],
               attachments := some [] }] }) := by
  unfold createTask
  rw [if_neg (not_admin_test hadmin), hf]
  dsimp only
  rw [if_neg (by simp [hr]), hd]

/-- C11, as stated, fails: the assignee is a stored employee, so neither
rejection applies, yet the request is answered 500 because the due date is not
a date. -/
theorem createTask_bad_date_not_created :
    demoAdmin.role = "admin" ∧
    findById demoStore.users (some "e1") = some demoEmployee ∧
    demoEmployee.role = "employee" ∧
    createTask demoParseDate 9 demoStore demoAdmin
        { emptyBody with title := some "T", assignedTo := some "e1",
                         dueDate := some "soon" } =
      (⟨500, .message "Something went wrong!"⟩, demoStore) := by
  decide

/-- C11, amended. For an admin caller, create answers 400 "Employee not found"
exactly when assignedTo matches no user's id, 400 "Selected user is not an
employee" exactly when the user it matches has another role, and 201 exactly
when that user is an employee and the due date is absent, empty or a date;
unless the answer is 201 both documents are as before. -/
theorem createTask_outcome (parseDate : String → Option Nat) (now : Nat) (st : Store)
    (user : User) (body : Body) (hadmin : user.role = "admin") :
    ((∀ u ∈ st.users, some u.id ≠ body.assignedTo) ↔
      createTask parseDate now st user body =
        (⟨400, .employeeNotFound "Employee not found. Please select a valid employee."
          ((st.users.filter (fun u => decide (u.role = "employee"))).map
            (fun u => (u.id, u.name)))⟩, st)) ∧
    ((∃ u, findById st.users body.assignedTo = some u ∧ u.role ≠ "employee") ↔
      createTask parseDate now st user body =
        (⟨400, .message "Selected user is not an employee"⟩, st)) ∧
    ((∃ u d, findById st.users body.assignedTo = some u ∧ u.role = "employee" ∧
        dueDateOf parseDate body.dueDate = some d) ↔
      (createTask parseDate now st user body).1.status = 201) ∧
    ((createTask parseDate now st user body).1.status = 201 ∨
      (createTask parseDate now st user body).2 = st) := by
  rw [← findById_eq_none_iff]
  cases hf : findById st.users body.assignedTo with
  | none =>
    rw [createTask_of_unknown hadmin hf]
    simp
  | some u =>
    by_cases hr : u.role = "employee"
    · cases hd : dueDateOf parseDate body.dueDate with
      | none =>
        rw [createTask_of_bad_date hadmin hf hr hd]
        simp [hr]
      | some d =>
        rw [createTask_of_ok hadmin hf hr hd]
        simp [hr]
    · rw [createTask_of_not_employee hadmin hf hr]
      simp [hr]

theorem createTask_outcome_witness :
    ((∀ u ∈ demoStore.users, some u.id ≠ some "a1") ↔
      createTask demoParseDate 9 demoStore demoAdmin
          { emptyBody with title := some "T", assignedTo := some "a1" } =
        (⟨400, .employeeNotFound "Employee not found. Please select a valid employee."
          ((demoStore.users.filter (fun u => decide (u.role = "employee"))).map
            (fun u => (u.id, u.name)))⟩, demoStore)) ∧
    ((∃ u, findById demoStore.users (some "a1") = some u ∧ u.role ≠ "employee") ↔
      createTask demoParseDate 9 demoStore demoAdmin
          { emptyBody with title := some "T", assignedTo := some "a1" } =
        (⟨400, .message "Selected user is not an employee"⟩, demoStore)) ∧
    ((∃ u d, findById demoStore.users (some "a1") = some u ∧ u.role = "employee" ∧
        dueDateOf demoParseDate none = some d) ↔
      (createTask demoParseDate 9 demoStore demoAdmin
        { emptyBody with title := some "T", assignedTo := some "a1" }).1.status = 201) ∧
    ((createTask demoParseDate 9 demoStore demoAdmin
        { emptyBody with title := some "T", assignedTo := some "a1" }).1.status = 201 ∨
      (createTask demoParseDate 9 demoStore demoAdmin
        { emptyBody with title := some "T", assignedTo := some "a1" }).2 = demoStore) :=
  createTask_outcome demoParseDate 9 demoStore demoAdmin
    { emptyBody with title := some "T", assignedTo := some "a1" } (by decide)

/-- C12. A create answered 201 leaves the user document alone and appends one
task behind the existing tasks: status pending, priority the submitted one
(medium when it is omitted, or empty), notes and attachments empty, assignedTo
the submitted identifier, assignedBy the caller's id, title and description as
submitted, createdAt the clock reading. -/
theorem createTask_appends (parseDate : String → Option Nat) (now : Nat) (st : Store)
    (user : User) (body : Body)
    (h : (createTask parseDate now st user body).1.status = 201) :
    ∃ newTask : Task,
      (createTask parseDate now st user body).2 =
        { users := st.users, tasks := st.tasks ++ [newTask] } ∧
      newTask.status = some "pending" ∧
      newTask.priority = (match body.priority with
        | none => "medium"
        | some p => if p = "" then "medium" else p) ∧
      newTask.notes = [] ∧ newTask.attachments = some [] ∧
      body.assignedTo = some newTask.assignedTo ∧
      newTask.assignedBy = user.id ∧
      newTask.title = body.title ∧ newTask.description = body.description ∧
      newTask.createdAt = now ∧ newTask.completedAt = none := by
  by_cases hadmin : user.role = "admin"
  · cases hf : findById st.users body.assignedTo with
    | none =>
      rw [createTask_of_unknown hadmin hf] at h
      simp at h
    | some u =>
      by_cases hr : u.role = "employee"
      · cases hd : dueDateOf parseDate body.dueDate with
        | none =>
          rw [createTask_of_bad_date hadmin hf hr hd] at h
          simp at h
        | some d =>
          rw [createTask_of_ok hadmin hf hr hd]
          refine ⟨_, rfl, rfl, ?_, rfl, rfl, (findById_eq_some hf).2, rfl, rfl, rfl, rfl, rfl⟩
          unfold orDefault
          rfl
      · rw [createTask_of_not_employee hadmin hf hr] at h
        simp at h
  · unfold createTask at h
    rw [if_pos (by simpa using hadmin)] at h
    simp at h

theorem createTask_appends_witness :
    ∃ newTask : Task,
      (createTask demoParseDate 9 demoStore demoAdmin
        { emptyBody with title := some "T", assignedTo := some "e1",
                         status := some "completed" }).2 =
        { users := demoStore.users, tasks := demoStore.tasks ++ [newTask] } ∧
      newTask.status = some "pending" ∧
      newTask.priority = "medium" ∧
      newTask.notes = [] ∧ newTask.attachments = some [] ∧
      some "e1" = some newTask.assignedTo ∧
      newTask.assignedBy = demoAdmin.id ∧
      newTask.title = some "T" ∧ newTask.description = none ∧
      newTask.createdAt = 9 ∧ newTask.completedAt = none :=
  createTask_appends demoParseDate 9 demoStore demoAdmin
    { emptyBody with title := some "T", assignedTo := some "e1", status := some "completed" }
    (by decide)

/-! ## Task update by an administrator -/

theorem updateTask_cases (parseDate : String → Option Nat) (now : Nat) (st : Store)
    (user : User) (id : String) (body : Body) :
    ((updateTask parseDate now st user id body).1.status ≠ 200 ∧
      (updateTask parseDate now st user id body).2 = st) ∨
    ∃ (idx : Nat) (old t : Task) (d : Option Nat),
      user.role = "admin" ∧
      st.tasks.findIdx? (fun t => t.hasId id) = some idx ∧
      st.tasks[idx]? = some old ∧
      (((body.assignedTo = none ∨ body.assignedTo = some "") ∧ t = old) ∨
        ∃ a u, body.assignedTo = some a ∧ a ≠ "" ∧ findById st.users (some a) = some u ∧
          u.role = "employee" ∧ t = { old with assignedTo := a }) ∧
      dueDateOf parseDate body.dueDate = some d ∧
      updateTask parseDate now st user id body =
        (⟨200, .taskMessage "Task updated successfully"
            ((patchTask now body d t).view
              (orNull (findById st.users (some (patchTask now body d t).assignedTo)))
              (orNull (findById st.users (some (patchTask now body d t).assignedBy))))⟩,
          { users := st.users, tasks := st.tasks.set idx (patchTask now body d t) }) := by
  unfold updateTask
  by_cases hadmin : user.role = "admin"
  swap
  · left
    rw [if_pos (by simpa using hadmin)]
    exact ⟨by simp, rfl⟩
  rw [if_neg (not_admin_test hadmin)]
  cases hi : st.tasks.findIdx? (fun t => t.hasId id) with
  | none => left; exact ⟨by simp, rfl⟩
  | some idx =>
    dsimp only
    cases hg : st.tasks[idx]? with
    | none => left; exact ⟨by simp, rfl⟩
    | some old =>
      dsimp only
      cases ha : body.assignedTo with
      | none =>
        dsimp only
        cases hd : dueDateOf parseDate body.dueDate with
        | none => left; exact ⟨by simp, rfl⟩
        | some d =>
          right
          exact ⟨idx, old, old, d, hadmin, rfl, hg, Or.inl ⟨Or.inl rfl, rfl⟩, rfl, rfl⟩
      | some a =>
        dsimp only
        by_cases hne : a = ""
        · rw [if_pos hne]
          dsimp only
          cases hd : dueDateOf parseDate body.dueDate with
          | none => left; exact ⟨by simp, rfl⟩
          | some d =>
            right
            exact ⟨idx, old, old, d, hadmin, rfl, hg, Or.inl ⟨Or.inr (by rw [hne]), rfl⟩,
              rfl, rfl⟩
        · rw [if_neg hne]
          cases hf : findById st.users (some a) with
          | none => left; exact ⟨by simp, rfl⟩
          | some u =>
            dsimp only
            by_cases hr : u.role = "employee"
            · rw [if_neg (by simp [hr])]
              dsimp only
              cases hd : dueDateOf parseDate body.dueDate with
              | none => left; exact ⟨by simp, rfl⟩
              | some d =>
                right
                exact ⟨idx, old, { old with assignedTo := a }, d, hadmin, rfl, hg,
                  Or.inr ⟨a, u, rfl, hne, hf, hr, rfl⟩, rfl, rfl⟩
            · rw [if_pos (by simpa using hr)]
              left
              exact ⟨by simp, rfl⟩

theorem patchTask_frame (now : Nat) (body : Body) (d : Option Nat) (t : Task) :
    (patchTask now body d t).id = t.id ∧ (patchTask now body d t)._id = t._id ∧
    (patchTask now body d t).assignedTo = t.assignedTo ∧
    (patchTask now body d t).assignedBy = t.assignedBy ∧
    (patchTask now body d t).createdAt = t.createdAt ∧
    (patchTask now body d t).notes = t.notes ∧
    (patchTask now body d t).attachments = t.attachments := by
  obtain ⟨_, _, _, _, _, _, _, title, description, _, priority, dueDate, status⟩ := body
  unfold patchTask
  cases title <;> cases description <;> cases priority <;> cases dueDate <;> cases status <;>
    dsimp only <;> (try split) <;> simp

theorem patchTask_absent (now : Nat) (body : Body) (d : Option Nat) (t : Task) :
    (body.title = none → (patchTask now body d t).title = t.title) ∧
    (body.description = none → (patchTask now body d t).description = t.description) ∧
    (body.priority = none → (patchTask now body d t).priority = t.priority) ∧
    (body.dueDate = none → (patchTask now body d t).dueDate = t.dueDate) ∧
    (body.status = none → (patchTask now body d t).status = t.status ∧
      (patchTask now body d t).completedAt = t.completedAt) := by
  obtain ⟨_, _, _, _, _, _, _, title, description, _, priority, dueDate, status⟩ := body
  unfold patchTask
  cases title <;> cases description <;> cases priority <;> cases dueDate <;> cases status <;>
    dsimp only <;> (try split) <;> simp

theorem patchTask_completedAt (now : Nat) (body : Body) (d : Option Nat) (t : Task) :
    (patchTask now body d t).completedAt =
      if body.status = some "completed" then some now else t.completedAt := by
  obtain ⟨_, _, _, _, _, _, _, title, description, _, priority, dueDate, status⟩ := body
  unfold patchTask
  cases title <;> cases description <;> cases priority <;> cases dueDate <;> cases status <;>
    dsimp only <;> (try split) <;> simp_all

/-- C13. Whatever the request and its outcome, an admin task update leaves the
user document and the number and order of the tasks as they were; the task at
every position keeps its id, assignedBy, createdAt, notes and attachments, and
keeps each of title, description, priority, dueDate, status and assignedTo that
the request does not carry; a task at a position other than the one the lookup
by id resolves to is not changed at all. -/
theorem updateTask_partial (parseDate : String → Option Nat) (now : Nat) (st : Store)
    (user : User) (id : String) (body : Body) :
    (updateTask parseDate now st user id body).2.users = st.users ∧
    (updateTask parseDate now st user id body).2.tasks.length = st.tasks.length ∧
    ∀ (i : Nat) (old : Task), st.tasks[i]? = some old →
      ∃ new : Task, (updateTask parseDate now st user id body).2.tasks[i]? = some new ∧
        new.id = old.id ∧ new._id = old._id ∧ new.assignedBy = old.assignedBy ∧
        new.createdAt = old.createdAt ∧ new.notes = old.notes ∧
        new.attachments = old.attachments ∧
        (body.title = none → new.title = old.title) ∧
        (body.description = none → new.description = old.description) ∧
        (body.priority = none → new.priority = old.priority) ∧
        (body.dueDate = none → new.dueDate = old.dueDate) ∧
        (body.status = none → new.status = old.status ∧ new.completedAt = old.completedAt) ∧
        (body.assignedTo = none → new.assignedTo = old.assignedTo) ∧
        (st.tasks.findIdx? (fun t => t.hasId id) ≠ some i → new = old) := by
  rcases updateTask_cases parseDate now st user id body with h | h
  · rw [h.2]
    refine ⟨rfl, rfl, ?_⟩
    intro i old hold
    exact ⟨old, hold, rfl, rfl, rfl, rfl, rfl, rfl, fun _ => rfl, fun _ => rfl, fun _ => rfl,
      fun _ => rfl, fun _ => ⟨rfl, rfl⟩, fun _ => rfl, fun _ => rfl⟩
  · obtain ⟨idx, old0, t, d, _, hi, hg, ht, _, heq⟩ := h
    rw [heq]
    refine ⟨rfl, List.length_set _ _ _, ?_⟩
    intro i old hold
    by_cases hii : idx = i
    · subst hii
      have hoo : old0 = old := by
        rw [hg] at hold
        exact Option.some.inj hold
      subst hoo
      have hframe := patchTask_frame now body d t
      have habs := patchTask_absent now body d t
      have htf : t.id = old0.id ∧ t._id = old0._id ∧ t.assignedBy = old0.assignedBy ∧
          t.createdAt = old0.createdAt ∧ t.notes = old0.notes ∧
          t.attachments = old0.attachments ∧ t.title = old0.title ∧
          t.description = old0.description ∧ t.priority = old0.priority ∧
          t.dueDate = old0.dueDate ∧ t.status = old0.status ∧
          t.completedAt = old0.completedAt := by
        rcases ht with ⟨_, rfl⟩ | ⟨a, u, _, _, _, _, rfl⟩
        · exact ⟨rfl, rfl, rfl, rfl, rfl, rfl, rfl, rfl, rfl, rfl, rfl, rfl⟩
        · exact ⟨rfl, rfl, rfl, rfl, rfl, rfl, rfl, rfl, rfl, rfl, rfl, rfl⟩
      refine ⟨patchTask now body d t, ?_, ?_, ?_, ?_, ?_, ?_, ?_, ?_, ?_, ?_, ?_, ?_, ?_, ?_⟩
      · show (st.tasks.set idx (patchTask now body d t))[idx]? = some _
        rw [List.getElem?_set_self', hg]
        rfl
      · rw [hframe.1, htf.1]
      · rw [hframe.2.1, htf.2.1]
      · rw [hframe.2.2.2.1, htf.2.2.1]
      · rw [hframe.2.2.2.2.1, htf.2.2.2.1]
      · rw [hframe.2.2.2.2.2.1, htf.2.2.2.2.1]
      · rw [hframe.2.2.2.2.2.2, htf.2.2.2.2.2.1]
      · intro hb; rw [habs.1 hb, htf.2.2.2.2.2.2.1]
      · intro hb; rw [habs.2.1 hb, htf.2.2.2.2.2.2.2.1]
      · intro hb; rw [habs.2.2.1 hb, htf.2.2.2.2.2.2.2.2.1]
      · intro hb; rw [habs.2.2.2.1 hb, htf.2.2.2.2.2.2.2.2.2.1]
      · intro hb
        rw [(habs.2.2.2.2 hb).1, (habs.2.2.2.2 hb).2, htf.2.2.2.2.2.2.2.2.2.2.1,
          htf.2.2.2.2.2.2.2.2.2.2.2]
        exact ⟨rfl, rfl⟩
      · intro hb
        rw [hframe.2.2.1]
        rcases ht with ⟨_, rfl⟩ | ⟨a, u, ha, _, _, _, _⟩
        · rfl
        · rw [hb] at ha; cases ha
      · intro hne
        exact absurd hi hne
    · refine ⟨old, ?_, rfl, rfl, rfl, rfl, rfl, rfl, fun _ => rfl, fun _ => rfl, fun _ => rfl,
        fun _ => rfl, fun _ => ⟨rfl, rfl⟩, fun _ => rfl, fun _ => rfl⟩
      show (st.tasks.set idx (patchTask now body d t))[i]? = some old
      rw [List.getElem?_set_ne hii, hold]

/-- An update that carries only a title and a status: the other fields of the
addressed task stay, completedAt is stamped. -/
theorem updateTask_partial_example :
    updateTask demoParseDate 9 demoStore demoAdmin "t1"
        { emptyBody with title := some "Audit", status := some "completed" } =
      (⟨200, .taskMessage "Task updated successfully"
          (Task.view { demoTask with title := some "Audit", status := some "completed",
                                     completedAt := some 9 }
            (.user demoEmployee) (.user demoAdmin))⟩,
        { users := demoStore.users,
          tasks := [{ demoTask with title := some "Audit", status := some "completed",
                                    completedAt := some 9 }] }) := by
  decide

theorem updateTask_of_assignee {parseDate : String → Option Nat} {now : Nat} {st : Store}
    {user : User} {id : String} {body : Body} {a : String} {idx : Nat} {old : Task}
    (hadmin : user.role = "admin")
    (hi : st.tasks.findIdx? (fun t => t.hasId id) = some idx) (hg : st.tasks[idx]? = some old)
    (ha : body.assignedTo = some a) (hne : a ≠ "") :
    updateTask parseDate now st user id body =
      match findById st.users (some a) with
      | none => (⟨400, .message "Invalid assignee"⟩, st)
      | some u =>
        if u.role = "employee" then
          match dueDateOf parseDate body.dueDate with
          | none => (⟨500, .message "Something went wrong!"⟩, st)
          | some d =>
            (⟨200, .taskMessage "Task updated successfully"
                ((patchTask now body d { old with assignedTo := a }).view
                  (orNull (findById st.users
                    (some (patchTask now body d { old with assignedTo := a }).assignedTo)))
                  (orNull (findById st.users
                    (some (patchTask now body d { old with assignedTo := a }).assignedBy))))⟩,
              { users := st.users,
                tasks := st.tasks.set idx (patchTask now body d { old with assignedTo := a }) })
        else (⟨400, .message "Invalid assignee"⟩, st) := by
  unfold updateTask
  rw [if_neg (not_admin_test hadmin), hi]
  dsimp only
  rw [hg]
  dsimp only
  rw [ha]
  dsimp only
  rw [if_neg hne]
  cases findById st.users (some a) with
  | none => rfl
  | some u =>
    dsimp only
    by_cases hr : u.role = "employee"
    · rw [if_neg (by simp [hr]), if_pos hr]
    · rw [if_pos (by simpa using hr), if_neg hr]

theorem updateTask_of_empty_assignee {parseDate : String → Option Nat} {now : Nat}
    {st : Store} {user : User} {id : String} {body : Body} {idx : Nat} {old : Task}
    (hadmin : user.role = "admin")
    (hi : st.tasks.findIdx? (fun t => t.hasId id) = some idx) (hg : st.tasks[idx]? = some old)
    (ha : body.assignedTo = some "") :
    updateTask parseDate now st user id body =
      match dueDateOf parseDate body.dueDate with
      | none => (⟨500, .message "Something went wrong!"⟩, st)
      | some d =>
        (⟨200, .taskMessage "Task updated successfully"
            ((patchTask now body d old).view
              (orNull (findById st.users (some (patchTask now body d old).assignedTo)))
              (orNull (findById st.users (some (patchTask now body d old).assignedBy))))⟩,
          { users := st.users, tasks := st.tasks.set idx (patchTask now body d old) }) := by
  unfold updateTask
  rw [if_neg (not_admin_test hadmin), hi]
  dsimp only
  rw [hg]
  dsimp only
  rw [ha]
  dsimp only
  rw [if_pos rfl]

/-- Create, seen from the submitted assignedTo: the answer is 400 exactly when
the identifier does not resolve to a user with role employee, a request that is
not answered 201 writes nothing, and the task of a 201 is appended with an
assignedTo that resolves to a user with role employee. -/
theorem createTask_assignee (parseDate : String → Option Nat) (now : Nat) (st : Store)
    (user : User) (body : Body) (a : String) (hadmin : user.role = "admin")
    (hC : body.assignedTo = some a) :
    ((createTask parseDate now st user body).1.status = 400 ↔
      ¬ ∃ u, findById st.users (some a) = some u ∧ u.role = "employee") ∧
    ((createTask parseDate now st user body).1.status = 201 ∨
      (createTask parseDate now st user body).2 = st) ∧
    ((createTask parseDate now st user body).1.status ≠ 201 ∨
      ∃ (new : Task) (u : User),
        (createTask parseDate now st user body).2.tasks = st.tasks ++ [new] ∧
        new.assignedTo = a ∧ findById st.users (some new.assignedTo) = some u ∧
        u.role = "employee") := by
  have hCf : findById st.users body.assignedTo = findById st.users (some a) := by rw [hC]
  cases hf : findById st.users (some a) with
  | none =>
    rw [createTask_of_unknown hadmin (hCf.trans hf)]
    simp
  | some u =>
    have hid : u.id = a := by
      have := (findById_eq_some hf).2
      exact (Option.some.inj this).symm
    by_cases hr : u.role = "employee"
    · cases hd : dueDateOf parseDate body.dueDate with
      | none =>
        rw [createTask_of_bad_date hadmin (hCf.trans hf) hr hd]
        refine ⟨?_, Or.inr rfl, Or.inl (by simp)⟩
        constructor
        · intro h; simp at h
        · intro h; exact absurd h (fun h2 => h2 ⟨u, rfl, hr⟩)
      | some d =>
        rw [createTask_of_ok hadmin (hCf.trans hf) hr hd]
        refine ⟨?_, Or.inl rfl, Or.inr ⟨_, u, rfl, hid, ?_, hr⟩⟩
        · constructor
          · intro h; simp at h
          · intro h; exact absurd h (fun h2 => h2 ⟨u, rfl, hr⟩)
        · show findById st.users (some u.id) = some u
          rw [hid, hf]
    · rw [createTask_of_not_employee hadmin (hCf.trans hf) hr]
      refine ⟨?_, Or.inr rfl, Or.inl (by simp)⟩
      constructor
      · intro _
        rintro ⟨v, hv, hvr⟩
        cases hv
        exact hr hvr
      · intro _; rfl

/-- Update and create on a non-empty assignedTo: update answers 400 "Invalid
assignee" exactly when create with that assignedTo answers 400, which is
exactly when the identifier does not resolve to a user with role employee; on
one and the same request body update succeeds exactly when create does; a
rejected request writes nothing, and after a successful create or reassignment
the task's assignedTo resolves to a user with role employee. -/
theorem updateTask_createTask_of_nonempty (parseDate : String → Option Nat) (nowU nowC : Nat)
    (st : Store) (user : User) (id : String) (bodyU bodyC : Body) (a : String) (old : Task)
    (hadmin : user.role = "admin")
    (hfind : st.tasks.find? (fun t => t.hasId id) = some old)
    (hU : bodyU.assignedTo = some a) (hC : bodyC.assignedTo = some a) (hne : a ≠ "") :
    ((updateTask parseDate nowU st user id bodyU).1 = ⟨400, .message "Invalid assignee"⟩ ↔
      (createTask parseDate nowC st user bodyC).1.status = 400) ∧
    ((updateTask parseDate nowU st user id bodyU).1 = ⟨400, .message "Invalid assignee"⟩ ↔
      ¬ ∃ u, findById st.users (some a) = some u ∧ u.role = "employee") ∧
    ((updateTask parseDate nowU st user id bodyU).1.status = 200 ↔
      (createTask parseDate nowC st user bodyU).1.status = 201) ∧
    ((updateTask parseDate nowU st user id bodyU).1.status = 200 ∨
      (updateTask parseDate nowU st user id bodyU).2 = st) ∧
    ((createTask parseDate nowC st user bodyC).1.status = 201 ∨
      (createTask parseDate nowC st user bodyC).2 = st) ∧
    ((updateTask parseDate nowU st user id bodyU).1.status ≠ 200 ∨
      ∃ (i : Nat) (new : Task) (u : User), st.tasks[i]? = some old ∧
        (updateTask parseDate nowU st user id bodyU).2.tasks[i]? = some new ∧
        new.assignedTo = a ∧ findById st.users (some new.assignedTo) = some u ∧
        u.role = "employee") ∧
    ((createTask parseDate nowC st user bodyC).1.status ≠ 201 ∨
      ∃ (new : Task) (u : User),
        (createTask parseDate nowC st user bodyC).2.tasks = st.tasks ++ [new] ∧
        new.assignedTo = a ∧ findById st.users (some new.assignedTo) = some u ∧
        u.role = "employee") := by
  obtain ⟨idx, hi, hg⟩ := findIdx?_of_find? _ _ _ hfind
  have hUa : updateTask parseDate nowU st user id bodyU = _ :=
    updateTask_of_assignee hadmin hi hg hU hne
  have hCf : findById st.users bodyC.assignedTo = findById st.users (some a) := by rw [hC]
  have hUf : findById st.users bodyU.assignedTo = findById st.users (some a) := by rw [hU]
  cases hf : findById st.users (some a) with
  | none =>
    rw [hf] at hUa
    rw [hUa, createTask_of_unknown hadmin (hCf.trans hf),
      createTask_of_unknown hadmin (hUf.trans hf)]
    simp
  | some u =>
    rw [hf] at hUa
    dsimp only at hUa
    have hid : u.id = a := by
      have := (findById_eq_some hf).2
      exact (Option.some.inj this).symm
    by_cases hr : u.role = "employee"
    · rw [if_pos hr] at hUa
      have hCc : (createTask parseDate nowC st user bodyC).1.status ≠ 400 ∧
          ((createTask parseDate nowC st user bodyC).1.status = 201 ∨
            (createTask parseDate nowC st user bodyC).2 = st) ∧
          ((createTask parseDate nowC st user bodyC).1.status ≠ 201 ∨
            ∃ (new : Task) (u : User),
              (createTask parseDate nowC st user bodyC).2.tasks = st.tasks ++ [new] ∧
              new.assignedTo = a ∧ findById st.users (some new.assignedTo) = some u ∧
              u.role = "employee") := by
        cases hdC : dueDateOf parseDate bodyC.dueDate with
        | none =>
          rw [createTask_of_bad_date hadmin (hCf.trans hf) hr hdC]
          simp
        | some dC =>
          rw [createTask_of_ok hadmin (hCf.trans hf) hr hdC]
          refine ⟨by simp, Or.inl rfl, Or.inr ⟨_, u, rfl, hid, ?_, hr⟩⟩
          show findById st.users (some u.id) = some u
          rw [hid, hf]
      cases hdU : dueDateOf parseDate bodyU.dueDate with
      | none =>
        rw [hdU] at hUa
        rw [hUa, createTask_of_bad_date hadmin (hUf.trans hf) hr hdU]
        refine ⟨?_, ?_, ?_, Or.inr rfl, hCc.2.1, Or.inl (by simp), hCc.2.2⟩
        · simp [hCc.1]
        · constructor
          · intro h; simp at h
          · intro h; exact absurd h (fun h2 => h2 ⟨u, rfl, hr⟩)
        · simp
      | some dU =>
        rw [hdU] at hUa
        rw [hUa, createTask_of_ok hadmin (hUf.trans hf) hr hdU]
        refine ⟨?_, ?_, ?_, Or.inl rfl, hCc.2.1,
          Or.inr ⟨idx, patchTask nowU bodyU dU { old with assignedTo := a }, u, hg, ?_, ?_, ?_,
            hr⟩, hCc.2.2⟩
        · simp [hCc.1]
        · constructor
          · intro h; simp at h
          · intro h; exact absurd h (fun h2 => h2 ⟨u, rfl, hr⟩)
        · simp
        · show (st.tasks.set idx _)[idx]? = some _
          rw [List.getElem?_set_self', hg]
          rfl
        · rw [(patchTask_frame nowU bodyU dU _).2.2.1]
        · rw [(patchTask_frame nowU bodyU dU _).2.2.1]
          exact hf
    · rw [if_neg hr] at hUa
      rw [hUa, createTask_of_not_employee hadmin (hCf.trans hf) hr,
        createTask_of_not_employee hadmin (hUf.trans hf) hr]
      have hnone : ¬ ∃ v : User, some u = some v ∧ v.role = "employee" := by
        rintro ⟨v, hv, hvr⟩
        cases hv
        exact hr hvr
      refine ⟨by simp, ?_, by simp, Or.inr rfl, Or.inr rfl, Or.inl (by simp), Or.inl (by simp)⟩
      constructor
      · intro _; exact hnone
      · intro _; rfl

/-- C14, as stated, fails: the update request carries an assignedTo, the empty
string, that create rejects because no user has that id, yet update answers
200 and leaves the task with the assignee it had. -/
theorem reassign_empty_not_validated :
    demoAdmin.role = "admin" ∧
    demoStore.tasks.find? (fun t => t.hasId "t1") = some demoTask ∧
    findById demoStore.users (some "") = none ∧
    (createTask demoParseDate 8 demoStore demoAdmin
        { emptyBody with assignedTo := some "" }).1.status = 400 ∧
    (createTask demoParseDate 8 demoStore demoAdmin
        { emptyBody with assignedTo := some "" }).2 = demoStore ∧
    updateTask demoParseDate 9 demoStore demoAdmin "t1"
        { emptyBody with assignedTo := some "" } =
      (⟨200, .taskMessage "Task updated successfully"
          (Task.view demoTask (.user demoEmployee) (.user demoAdmin))⟩, demoStore) := by
  decide

/-- C14, amended. For an existing task, an admin caller and an assignedTo that
the requests carry: update answers 400 "Invalid assignee" exactly when the
assignedTo is not the empty string and create with that assignedTo answers
400, and create answers 400 exactly when the identifier does not resolve to a
user with role employee; for a non-empty assignedTo update succeeds on a
request body exactly when create succeeds on the same body; a request that
does not succeed writes nothing; after a successful update the task has the
assignee it had when the assignedTo is empty, and otherwise the submitted
assignedTo, which resolves to a user with role employee; after a successful
create the task's assignedTo resolves to a user with role employee. -/
theorem reassign_validates_as_create (parseDate : String → Option Nat) (nowU nowC : Nat)
    (st : Store) (user : User) (id : String) (bodyU bodyC : Body) (a : String) (old : Task)
    (hadmin : user.role = "admin")
    (hfind : st.tasks.find? (fun t => t.hasId id) = some old)
    (hU : bodyU.assignedTo = some a) (hC : bodyC.assignedTo = some a) :
    ((updateTask parseDate nowU st user id bodyU).1 = ⟨400, .message "Invalid assignee"⟩ ↔
      a ≠ "" ∧ (createTask parseDate nowC st user bodyC).1.status = 400) ∧
    ((createTask parseDate nowC st user bodyC).1.status = 400 ↔
      ¬ ∃ u, findById st.users (some a) = some u ∧ u.role = "employee") ∧
    (a = "" ∨
      ((updateTask parseDate nowU st user id bodyU).1.status = 200 ↔
        (createTask parseDate nowC st user bodyU).1.status = 201)) ∧
    ((updateTask parseDate nowU st user id bodyU).1.status = 200 ∨
      (updateTask parseDate nowU st user id bodyU).2 = st) ∧
    ((createTask parseDate nowC st user bodyC).1.status = 201 ∨
      (createTask parseDate nowC st user bodyC).2 = st) ∧
    ((updateTask parseDate nowU st user id bodyU).1.status ≠ 200 ∨
      ∃ (i : Nat) (new : Task), st.tasks[i]? = some old ∧
        (updateTask parseDate nowU st user id bodyU).2.tasks[i]? = some new ∧
        ((a = "" ∧ new.assignedTo = old.assignedTo) ∨
          (a ≠ "" ∧ new.assignedTo = a ∧
            ∃ u : User, findById st.users (some new.assignedTo) = some u ∧
              u.role = "employee"))) ∧
    ((createTask parseDate nowC st user bodyC).1.status ≠ 201 ∨
      ∃ (new : Task) (u : User),
        (createTask parseDate nowC st user bodyC).2.tasks = st.tasks ++ [new] ∧
        new.assignedTo = a ∧ findById st.users (some new.assignedTo) = some u ∧
        u.role = "employee") := by
  obtain ⟨hc400, hcframe, hcafter⟩ :=
    createTask_assignee parseDate nowC st user bodyC a hadmin hC
  by_cases hne : a = ""
  · subst hne
    obtain ⟨idx, hi, hg⟩ := findIdx?_of_find? _ _ _ hfind
    have hUa : updateTask parseDate nowU st user id bodyU = _ :=
      updateTask_of_empty_assignee hadmin hi hg hU
    cases hd : dueDateOf parseDate bodyU.dueDate with
    | none =>
      rw [hd] at hUa
      rw [hUa]
      exact ⟨by simp, hc400, Or.inl rfl, Or.inr rfl, hcframe, Or.inl (by simp), hcafter⟩
    | some d =>
      rw [hd] at hUa
      rw [hUa]
      refine ⟨by simp, hc400, Or.inl rfl, Or.inl rfl, hcframe,
        Or.inr ⟨idx, patchTask nowU bodyU d old, hg, ?_,
          Or.inl ⟨rfl, (patchTask_frame nowU bodyU d old).2.2.1⟩⟩, hcafter⟩
      show (st.tasks.set idx _)[idx]? = some _
      rw [List.getElem?_set_self', hg]
      rfl
  · obtain ⟨h1, _, h3, h4, _, h6, _⟩ :=
      updateTask_createTask_of_nonempty parseDate nowU nowC st user id bodyU bodyC a old
        hadmin hfind hU hC hne
    refine ⟨⟨fun h => ⟨hne, h1.1 h⟩, fun h => h1.2 h.2⟩, hc400, Or.inr h3, h4, hcframe, ?_,
      hcafter⟩
    rcases h6 with h | ⟨i, new, u, hold, hnew, hto, hres, hrole⟩
    · exact Or.inl h
    · exact Or.inr ⟨i, new, hold, hnew, Or.inr ⟨hne, hto, u, hres, hrole⟩⟩

theorem reassign_validates_as_create_witness :
    ((updateTask demoParseDate 9 demoStore demoAdmin "t1"
        { emptyBody with assignedTo := some "a1" }).1 = ⟨400, .message "Invalid assignee"⟩ ↔
      "a1" ≠ "" ∧
      (createTask demoParseDate 8 demoStore demoAdmin
        { emptyBody with title := some "T", assignedTo := some "a1" }).1.status = 400) ∧
    ((createTask demoParseDate 8 demoStore demoAdmin
        { emptyBody with title := some "T", assignedTo := some "a1" }).1.status = 400 ↔
      ¬ ∃ u, findById demoStore.users (some "a1") = some u ∧ u.role = "employee") :=
  ⟨(reassign_validates_as_create demoParseDate 9 8 demoStore demoAdmin "t1"
      { emptyBody with assignedTo := some "a1" }
      { emptyBody with title := some "T", assignedTo := some "a1" } "a1" demoTask
      (by decide) (by decide) (by decide) (by decide)).1,
    (reassign_validates_as_create demoParseDate 9 8 demoStore demoAdmin "t1"
      { emptyBody with assignedTo := some "a1" }
      { emptyBody with title := some "T", assignedTo := some "a1" } "a1" demoTask
      (by decide) (by decide) (by decide) (by decide)).2.1⟩

/-! ## Completion stamp -/

theorem updateStatus_of_find (now : Nat) (body : Body) {st : Store} {user : User}
    {id : String} {old : Task}
    (hfind : st.tasks.find? (fun t => t.hasId id && decide (t.assignedTo = user.id)) =
      some old) :
    ∃ i, st.tasks[i]? = some old ∧
      updateStatus now st user id body =
        (⟨200, .message "Task status updated successfully"⟩,
          { users := st.users,
            tasks := st.tasks.set i
              (if body.status = some "completed" then
                { old with status := body.status, completedAt := some now }
              else { old with status := body.status }) }) := by
  obtain ⟨i, hi, hg⟩ := findIdx?_of_find? _ _ _ hfind
  refine ⟨i, hg, ?_⟩
  unfold updateStatus
  rw [hi]
  dsimp only
  rw [hg]

/-- C15. On both paths, a status update that goes through replaces the
addressed task by one with the same createdAt whose completedAt is the clock
reading when the submitted status is completed (so it is not before createdAt
for a task created at an earlier or equal clock reading) and is the previous
completedAt for every other submitted status, an absent one included. -/
theorem completedAt_stamp (parseDate : String → Option Nat) (now : Nat) (st : Store)
    (employee admin : User) (idE idA : String) (bodyE bodyA : Body) (oldE oldA : Task)
    (hE : st.tasks.find? (fun t => t.hasId idE && decide (t.assignedTo = employee.id)) =
      some oldE)
    (hA : st.tasks.find? (fun t => t.hasId idA) = some oldA)
    (hokA : (updateTask parseDate now st admin idA bodyA).1.status = 200) :
    ∃ (i j : Nat) (newE newA : Task),
      st.tasks[i]? = some oldE ∧
      (updateStatus now st employee idE bodyE).2.tasks = st.tasks.set i newE ∧
      (updateStatus now st employee idE bodyE).2.tasks[i]? = some newE ∧
      st.tasks[j]? = some oldA ∧
      (updateTask parseDate now st admin idA bodyA).2.tasks = st.tasks.set j newA ∧
      (updateTask parseDate now st admin idA bodyA).2.tasks[j]? = some newA ∧
      newE.createdAt = oldE.createdAt ∧ newA.createdAt = oldA.createdAt ∧
      ((bodyE.status = some "completed" ∧ newE.completedAt = some now ∧
          (oldE.createdAt ≤ now → newE.createdAt ≤ now)) ∨
        (bodyE.status ≠ some "completed" ∧ newE.completedAt = oldE.completedAt)) ∧
      ((bodyA.status = some "completed" ∧ newA.completedAt = some now ∧
          (oldA.createdAt ≤ now → newA.createdAt ≤ now)) ∨
        (bodyA.status ≠ some "completed" ∧ newA.completedAt = oldA.completedAt)) := by
  obtain ⟨i, hgE, heqE⟩ := updateStatus_of_find now bodyE hE
  obtain ⟨j, hj, hgA⟩ := findIdx?_of_find? _ _ _ hA
  rcases updateTask_cases parseDate now st admin idA bodyA with h | h
  · exact absurd hokA h.1
  · obtain ⟨idx, old0, t, d, _, hi, hg, ht, _, heqA⟩ := h
    have hidx : idx = j := by
      rw [hj] at hi
      exact (Option.some.inj hi).symm
    subst hidx
    have hold : old0 = oldA := by
      rw [hgA] at hg
      exact (Option.some.inj hg).symm
    subst hold
    have htc : t.createdAt = old0.createdAt ∧ t.completedAt = old0.completedAt := by
      rcases ht with ⟨_, rfl⟩ | ⟨a, u, _, _, _, _, rfl⟩
      · exact ⟨rfl, rfl⟩
      · exact ⟨rfl, rfl⟩
    rw [heqE, heqA]
    refine ⟨i, idx, _, patchTask now bodyA d t, hgE, rfl, ?_, hgA, rfl, ?_, ?_, ?_, ?_, ?_⟩
    · show (st.tasks.set i _)[i]? = some _
      rw [List.getElem?_set_self', hgE]
      rfl
    · show (st.tasks.set idx _)[idx]? = some _
      rw [List.getElem?_set_self', hgA]
      rfl
    · by_cases hc : bodyE.status = some "completed"
      · rw [if_pos hc]
      · rw [if_neg hc]
    · rw [(patchTask_frame now bodyA d t).2.2.2.2.1, htc.1]
    · by_cases hc : bodyE.status = some "completed"
      · left
        rw [if_pos hc]
        exact ⟨hc, rfl, fun h => h⟩
      · right
        rw [if_neg hc]
        exact ⟨hc, rfl⟩
    · rw [patchTask_completedAt, (patchTask_frame now bodyA d t).2.2.2.2.1, htc.1, htc.2]
      by_cases hc : bodyA.status = some "completed"
      · left
        rw [if_pos hc]
        exact ⟨hc, rfl, fun h => h⟩
      · right
        rw [if_neg hc]
        exact ⟨hc, rfl⟩

theorem completedAt_stamp_witness :
    ∃ (i j : Nat) (newE newA : Task),
      demoStore.tasks[i]? = some demoTask ∧
      (updateStatus 9 demoStore demoEmployee "t1"
        { emptyBody with status := some "completed" }).2.tasks =
        demoStore.tasks.set i newE ∧
      (updateStatus 9 demoStore demoEmployee "t1"
        { emptyBody with status := some "completed" }).2.tasks[i]? = some newE ∧
      demoStore.tasks[j]? = some demoTask ∧
      (updateTask demoParseDate 9 demoStore demoAdmin "t1"
        { emptyBody with status := some "in_progress" }).2.tasks =
        demoStore.tasks.set j newA ∧
      (updateTask demoParseDate 9 demoStore demoAdmin "t1"
        { emptyBody with status := some "in_progress" }).2.tasks[j]? = some newA ∧
      newE.createdAt = demoTask.createdAt ∧ newA.createdAt = demoTask.createdAt ∧
      ((some "completed" = some "completed" ∧ newE.completedAt = some 9 ∧
          (demoTask.createdAt ≤ 9 → newE.createdAt ≤ 9)) ∨
        (some "completed" ≠ some "completed" ∧ newE.completedAt = demoTask.completedAt)) ∧
      ((some "in_progress" = some "completed" ∧ newA.completedAt = some 9 ∧
          (demoTask.createdAt ≤ 9 → newA.createdAt ≤ 9)) ∨
        (some "in_progress" ≠ some "completed" ∧
          newA.completedAt = demoTask.completedAt)) :=
  completedAt_stamp demoParseDate 9 demoStore demoEmployee demoAdmin "t1" "t1"
    { emptyBody with status := some "completed" }
    { emptyBody with status := some "in_progress" } demoTask demoTask
    (by decide) (by decide) (by decide)

/-! ## Task deletion -/

theorem findIdx?_split {α : Type} (p : α → Bool) (l : List α) (i : Nat)
    (h : l.findIdx? p = some i) :
    ∃ pre t post, l = pre ++ t :: post ∧ pre.length = i ∧ p t = true ∧
      ∀ s ∈ pre, p s = false := by
  induction l generalizing i with
  | nil => simp at h
  | cons x xs ih =>
    rw [List.findIdx?_cons] at h
    by_cases hp : p x = true
    · rw [if_pos hp] at h
      cases h
      exact ⟨[], x, xs, rfl, rfl, hp, by simp⟩
    · rw [if_neg hp, List.findIdx?_succ] at h
      cases hx : xs.findIdx? p with
      | none => rw [hx] at h; cases h
      | some k =>
        rw [hx] at h
        cases h
        obtain ⟨pre, t, post, hl, hlen, hpt, hpre⟩ := ih k hx
        refine ⟨x :: pre, t, post, by rw [hl]; rfl, by simp [hlen], hpt, ?_⟩
        intro s hs
        rcases List.mem_cons.1 hs with rfl | hs
        · simpa using hp
        · exact hpre s hs

theorem eraseIdx_split {α : Type} (pre : List α) (t : α) (post : List α) :
    (pre ++ t :: post).eraseIdx pre.length = pre ++ post := by
  induction pre with
  | nil => rfl
  | cons x xs ih => simp [List.eraseIdx_cons_succ, ih]

/-- C16. For an admin caller, delete answers 404 "Task not found" and writes
nothing when no task has the given id; otherwise it answers 200 and the task
document is the previous one without the first task that has the id, the tasks
before and after it unchanged and in order; the user document is untouched. -/
theorem deleteTask_removes_first (st : Store) (user : User) (id : String)
    (hadmin : user.role = "admin") :
    ((∀ t ∈ st.tasks, ¬ (t.id = id ∨ t._id = some id)) ∧
      deleteTask st user id = (⟨404, .message "Task not found"⟩, st)) ∨
    ∃ (pre : List Task) (t : Task) (post : List Task),
      st.tasks = pre ++ t :: post ∧ (t.id = id ∨ t._id = some id) ∧
      (∀ s ∈ pre, ¬ (s.id = id ∨ s._id = some id)) ∧
      deleteTask st user id =
        (⟨200, .message "Task deleted successfully"⟩,
          { users := st.users, tasks := pre ++ post }) := by
  unfold deleteTask
  rw [if_neg (not_admin_test hadmin)]
  cases hi : st.tasks.findIdx? (fun t => t.hasId id) with
  | none =>
    left
    refine ⟨?_, rfl⟩
    rw [List.findIdx?_eq_none_iff] at hi
    intro t ht hid
    have := hi t ht
    rw [(hasId_eq_true_iff t id).2 hid] at this
    cases this
  | some idx =>
    right
    obtain ⟨pre, t, post, hl, hlen, hpt, hpre⟩ := findIdx?_split _ _ _ hi
    refine ⟨pre, t, post, hl, (hasId_eq_true_iff t id).1 hpt, ?_, ?_⟩
    · intro s hs hid
      have := hpre s hs
      rw [(hasId_eq_true_iff s id).2 hid] at this
      cases this
    · dsimp only
      rw [hl, ← hlen, eraseIdx_split]

theorem deleteTask_removes_first_witness :
    ((∀ t ∈ demoStore.tasks, ¬ (t.id = "t1" ∨ t._id = some "t1")) ∧
      deleteTask demoStore demoAdmin "t1" = (⟨404, .message "Task not found"⟩, demoStore)) ∨
    ∃ (pre : List Task) (t : Task) (post : List Task),
      demoStore.tasks = pre ++ t :: post ∧ (t.id = "t1" ∨ t._id = some "t1") ∧
      (∀ s ∈ pre, ¬ (s.id = "t1" ∨ s._id = some "t1")) ∧
      deleteTask demoStore demoAdmin "t1" =
        (⟨200, .message "Task deleted successfully"⟩,
          { users := demoStore.users, tasks := pre ++ post }) :=
  deleteTask_removes_first demoStore demoAdmin "t1" (by decide)

/-! ## Task reads -/

/-- C17. The task reads send the whole stored user record, password hash
included: get-task by the demo administrator answers with the demo employee's
record as assignedTo, the answer changes when only that employee's stored hash
changes, and the employee's own task list carries the administrator's record
with its hash as assignedBy. -/
theorem task_read_exposes_password :
    (getTask demoStore demoAdmin "t1").1 =
      ⟨200, .task (demoTask.view (.user demoEmployee) (.user demoAdmin))⟩ ∧
    demoEmployee.password = "hashed:pass" ∧
    (getTask { demoStore with users := [demoAdmin, { demoEmployee with password := "other" }] }
        demoAdmin "t1").1 ≠
      (getTask demoStore demoAdmin "t1").1 ∧
    (listAllTasks demoStore demoAdmin).1 =
      ⟨200, .tasks [demoTask.view (.user demoEmployee) (.user demoAdmin)]⟩ ∧
    (listMyTasks demoStore demoEmployee).1 =
      ⟨200, .tasks [demoTask.view (.id "e1") (.user demoAdmin)]⟩ ∧
    demoAdmin.password = "hashed:secret" := by
  decide

/-! ## Create, then read -/

/-- C18, as stated, fails. A create without a priority is read back with
priority medium, and a create whose clock reading gives an identifier that a
stored task already has is read back as that older task. -/
theorem createTask_getTask_mismatch :
    (createTask demoParseDate 9 demoStore demoAdmin
      { emptyBody with title := some "New", assignedTo := some "e1" }).1.status = 201 ∧
    (getTask (createTask demoParseDate 9 demoStore demoAdmin
        { emptyBody with title := some "New", assignedTo := some "e1" }).2 demoAdmin "9").1 =
      ⟨200, .task
        { id := "9", _id := none, title := some "New", description := none,
          assignedTo := .user demoEmployee, assignedBy := .user demoAdmin,
          status := some "pending", priority := "medium", dueDate := none, createdAt := 9,
          completedAt := none, notes := [], attachments := some [] }⟩ ∧
    (createTask demoParseDate 9 takenIdStore demoAdmin
      { emptyBody with title := some "New", assignedTo := some "e1",
                       priority := some "low" }).1.status = 201 ∧
    (getTask (createTask demoParseDate 9 takenIdStore demoAdmin
        { emptyBody with title := some "New", assignedTo := some "e1",
                         priority := some "low" }).2 demoAdmin "9").1 =
      ⟨200, .task
        { id := "9", _id := none, title := some "Report", description := some "Write it",
          assignedTo := .user demoEmployee, assignedBy := .user demoAdmin,
          status := some "pending", priority := "high", dueDate := none, createdAt := 3,
          completedAt := none, notes := [], attachments := some [] }⟩ := by
  decide

theorem find?_append_of_none {α : Type} (p : α → Bool) (l : List α) (x : α)
    (hl : ∀ s ∈ l, p s = false) (hx : p x = true) : (l ++ [x]).find? p = some x := by
  rw [List.find?_append, List.find?_eq_none.2 (fun s hs => by simp [hl s hs])]
  simp [hx]

/-- C18, amended. When a create by an admin who is the stored user of that id
is answered 201 and no stored task has the new identifier, a get of the returned
id by that admin answers 200 with title and description as submitted, priority as
submitted (medium when omitted or empty), dueDate the converted date (null when
omitted or empty), assignedTo the stored record of the submitted employee and
assignedBy the stored record of the admin. -/
theorem createTask_getTask (parseDate : String → Option Nat) (now : Nat) (st : Store)
    (user : User) (body : Body)
    (hok : (createTask parseDate now st user body).1.status = 201)
    (hauth : findById st.users (some user.id) = some user)
    (hfresh : ∀ t ∈ st.tasks, ¬ (t.id = toString now ∨ t._id = some (toString now))) :
    ∃ (u : User) (d : Option Nat) (created : TaskView),
      findById st.users body.assignedTo = some u ∧ u.role = "employee" ∧
      dueDateOf parseDate body.dueDate = some d ∧
      (createTask parseDate now st user body).1.body =
        .taskMessage "Task created successfully" created ∧
      created.id = toString now ∧
      getTask (createTask parseDate now st user body).2 user (toString now) =
        (⟨200, .task
          { id := toString now, _id := none, title := body.title,
            description := body.description, assignedTo := .user u, assignedBy := .user user,
            status := some "pending",
            priority := (match body.priority with
              | none => "medium"
              | some p => if p = "" then "medium" else p),
            dueDate := d, createdAt := now, completedAt := none, notes := [],
            attachments := some [] }⟩,
          (createTask parseDate now st user body).2) := by
  by_cases hadmin : user.role = "admin"
  · cases hf : findById st.users body.assignedTo with
    | none =>
      rw [createTask_of_unknown hadmin hf] at hok
      simp at hok
    | some u =>
      by_cases hr : u.role = "employee"
      · cases hd : dueDateOf parseDate body.dueDate with
        | none =>
          rw [createTask_of_bad_date hadmin hf hr hd] at hok
          simp at hok
        | some d =>
          have hu : findById st.users (some u.id) = some u := by
            rw [← (findById_eq_some hf).2]
            exact hf
          rw [createTask_of_ok hadmin hf hr hd]
          refine ⟨u, d, _, rfl, hr, rfl, rfl, rfl, ?_⟩
          unfold getTask
          dsimp only
          rw [find?_append_of_none _ _ _
            (fun s hs => by
              have := hfresh s hs
              rw [← hasId_eq_true_iff] at this
              simpa using this)
            (by simp [Task.hasId])]
          dsimp only
          rw [if_neg (by simp [accessDenied, hadmin]), hu, hauth]
          unfold orDefault
          rfl
      · rw [createTask_of_not_employee hadmin hf hr] at hok
        simp at hok
  · unfold createTask at hok
    rw [if_pos (by simpa using hadmin)] at hok
    simp at hok

theorem createTask_getTask_witness :
    ∃ (u : User) (d : Option Nat) (created : TaskView),
      findById demoStore.users (some "e1") = some u ∧ u.role = "employee" ∧
      dueDateOf demoParseDate (some "2030-01-01") = some d ∧
      (createTask demoParseDate 9 demoStore demoAdmin
        { emptyBody with title := some "New", assignedTo := some "e1",
                         priority := some "low", dueDate := some "2030-01-01" }).1.body =
        .taskMessage "Task created successfully" created ∧
      created.id = toString 9 ∧
      getTask (createTask demoParseDate 9 demoStore demoAdmin
          { emptyBody with title := some "New", assignedTo := some "e1",
                           priority := some "low", dueDate := some "2030-01-01" }).2
          demoAdmin (toString 9) =
        (⟨200, .task
          { id := toString 9, _id := none, title := some "New",
            description := none, assignedTo := .user u, assignedBy := .user demoAdmin,
            status := some "pending", priority := "low",
            dueDate := d, createdAt := 9, completedAt := none, notes := [],
            attachments := some [] }⟩,
          (createTask demoParseDate 9 demoStore demoAdmin
            { emptyBody with title := some "New", assignedTo := some "e1",
                             priority := some "low", dueDate := some "2030-01-01" }).2) :=
  createTask_getTask demoParseDate 9 demoStore demoAdmin
    { emptyBody with title := some "New", assignedTo := some "e1", priority := some "low",
                     dueDate := some "2030-01-01" }
    (by decide) (by decide) (by decide)

/-! ## Dashboard counts -/

theorem countStatus_cons (t : Task) (l : List Task) (s : String) :
    countStatus (t :: l) s = (if t.status = some s then 1 else 0) + countStatus l s := by
  unfold countStatus
  by_cases h : t.status = some s
  · simp [List.filter_cons, h]
    omega
  · simp [List.filter_cons, h]

theorem countStatus_sum (l : List Task) :
    countStatus l "pending" + countStatus l "in_progress" + countStatus l "completed" ≤
      l.length ∧
    (countStatus l "pending" + countStatus l "in_progress" + countStatus l "completed" =
        l.length ↔
      ∀ t ∈ l, t.status = some "pending" ∨ t.status = some "in_progress" ∨
        t.status = some "completed") := by
  induction l with
  | nil => simp [countStatus]
  | cons t l ih =>
    rw [countStatus_cons, countStatus_cons, countStatus_cons, List.length_cons]
    simp only [List.mem_cons, forall_eq_or_imp]
    rw [← ih.2]
    have hle := ih.1
    by_cases hp : t.status = some "pending"
    · simp only [hp, Option.some.injEq]
      simp only [show ¬ ("pending" = "in_progress") by decide,
        show ¬ ("pending" = "completed") by decide, if_true, if_false, true_or, true_and]
      omega
    · by_cases hi : t.status = some "in_progress"
      · simp only [hi, Option.some.injEq]
        simp only [show ¬ ("in_progress" = "pending") by decide,
          show ¬ ("in_progress" = "completed") by decide, if_true, if_false, true_or, or_true,
          true_and, false_or]
        omega
      · by_cases hc : t.status = some "completed"
        · simp only [hc, Option.some.injEq]
          simp only [show ¬ ("completed" = "pending") by decide,
            show ¬ ("completed" = "in_progress") by decide, if_true, if_false, or_true,
            true_and, false_or]
          omega
        · simp only [hp, hi, hc, if_false, false_or, false_and]
          refine ⟨by omega, ?_⟩
          constructor
          · intro h
            omega
          · intro h
            exact h.elim

/-- C19, as stated, fails. The store reached by starting the server, creating
one task as the sample admin and setting its status to "blocked" as its
assignee holds one task, and both dashboards count no pending, no in-progress
and no completed task. -/
theorem reachable_counts_short :
    Reachable demoBcrypt demoParseDate blockedStore ∧
    (∃ recent, (adminDashboard blockedStore (sampleAdmin 100)).1 =
      ⟨200, .adminDashboard
        { totalEmployees := 1, totalTasks := 1, completedTasks := 0, pendingTasks := 0,
          inProgressTasks := 0 } recent⟩) ∧
    (∃ recent, (employeeDashboard blockedStore (sampleEmployee demoBcrypt 100)).1 =
      ⟨200, .employeeDashboard
        { totalTasks := 1, completedTasks := 0, pendingTasks := 0, inProgressTasks := 0 }
        recent⟩) := by
  refine ⟨?_, ⟨_, rfl⟩, ⟨_, rfl⟩⟩
  exact Reachable.byUpdateStatus 300 oneTaskStore (sampleEmployee demoBcrypt 100) "200"
    { emptyBody with status := some "blocked" }
    (Reachable.byCreateTask 200 startedStore (sampleAdmin 100)
      { emptyBody with title := some "T", assignedTo := some "100" }
      (Reachable.bySampleData 100 ⟨[], []⟩ Reachable.start) (by decide))
    (by decide)

/-- C19, amended. For every store in which each task's status is one of
pending, in_progress and completed, the admin dashboard (for an admin caller)
and the dashboard of every employee report counts with pendingTasks +
inProgressTasks + completedTasks = totalTasks. -/
theorem dashboard_counts_sum (st : Store) (admin employee : User)
    (hadmin : admin.role = "admin")
    (hknown : ∀ t ∈ st.tasks, t.status = some "pending" ∨ t.status = some "in_progress" ∨
      t.status = some "completed") :
    (∃ stats recent, (adminDashboard st admin).1 = ⟨200, .adminDashboard stats recent⟩ ∧
      stats.pendingTasks + stats.inProgressTasks + stats.completedTasks = stats.totalTasks) ∧
    (∃ stats recent, (employeeDashboard st employee).1 =
        ⟨200, .employeeDashboard stats recent⟩ ∧
      stats.pendingTasks + stats.inProgressTasks + stats.completedTasks = stats.totalTasks) := by
  constructor
  · unfold adminDashboard
    rw [if_neg (not_admin_test hadmin)]
    exact ⟨_, _, rfl, (countStatus_sum st.tasks).2.2 hknown⟩
  · unfold employeeDashboard
    refine ⟨_, _, rfl, (countStatus_sum _).2.2 ?_⟩
    intro t ht
    exact hknown t (List.mem_of_mem_filter ht)

theorem dashboard_counts_sum_witness :
    (∃ stats recent, (adminDashboard demoStore demoAdmin).1 =
        ⟨200, .adminDashboard stats recent⟩ ∧
      stats.pendingTasks + stats.inProgressTasks + stats.completedTasks = stats.totalTasks) ∧
    (∃ stats recent, (employeeDashboard demoStore demoEmployee).1 =
        ⟨200, .employeeDashboard stats recent⟩ ∧
      stats.pendingTasks + stats.inProgressTasks + stats.completedTasks = stats.totalTasks) :=
  dashboard_counts_sum demoStore demoAdmin demoEmployee (by decide) (by decide)

/-! ## Recent tasks -/

theorem sortRecent_sorted (tasks : List Task) :
    (sortRecent tasks).Pairwise (fun a b => b.createdAt ≤ a.createdAt) := by
  haveI : IsTotal Task (fun a b => b.createdAt ≤ a.createdAt) :=
    ⟨fun a b => Nat.le_total b.createdAt a.createdAt⟩
  haveI : IsTrans Task (fun a b => b.createdAt ≤ a.createdAt) :=
    ⟨fun _ _ _ hab hbc => Nat.le_trans hbc hab⟩
  exact List.sorted_insertionSort (fun a b : Task => b.createdAt ≤ a.createdAt) tasks

theorem sortRecent_perm (tasks : List Task) : (sortRecent tasks).Perm tasks :=
  List.perm_insertionSort _ tasks

theorem sortRecent_filter (tasks : List Task) (c : Nat) :
    (sortRecent tasks).filter (fun t => decide (t.createdAt = c)) =
      tasks.filter (fun t => decide (t.createdAt = c)) := by
  have hpair : (tasks.filter (fun t => decide (t.createdAt = c))).Pairwise
      (fun a b => b.createdAt ≤ a.createdAt) := by
    apply List.pairwise_of_forall_mem_list
    intro a ha b hb
    have h1 : a.createdAt = c := by simpa using (List.mem_filter.1 ha).2
    have h2 : b.createdAt = c := by simpa using (List.mem_filter.1 hb).2
    rw [h1, h2]
  have hsub : List.Sublist (tasks.filter (fun t => decide (t.createdAt = c)))
      (sortRecent tasks) :=
    List.sublist_insertionSort hpair (List.filter_sublist tasks)
  have hsub2 := hsub.filter (fun t => decide (t.createdAt = c))
  rw [List.filter_filter] at hsub2
  simp only [Bool.and_self] at hsub2
  have hlen := ((sortRecent_perm tasks).filter (fun t => decide (t.createdAt = c))).length_eq
  exact (hsub2.eq_of_length hlen.symm).symm

theorem mostRecentFive_sortRecent (tasks : List Task) :
    MostRecentFive tasks ((sortRecent tasks).take 5) := by
  refine ⟨(sortRecent tasks).drop 5, ?_, ?_, ?_, ?_, ?_⟩
  · rw [List.take_append_drop]
    exact sortRecent_perm tasks
  · rw [List.length_take, (sortRecent_perm tasks).length_eq]
  · exact (sortRecent_sorted tasks).sublist (List.take_sublist 5 _)
  · intro a ha b hb
    have hs := sortRecent_sorted tasks
    rw [← List.take_append_drop 5 (sortRecent tasks), List.pairwise_append] at hs
    exact hs.2.2 a ha b hb
  · intro c
    rw [← sortRecent_filter tasks c]
    exact (List.take_prefix 5 (sortRecent tasks)).filter _

/-- C20. The admin dashboard (for an admin caller) shows the views of a list of
tasks that is the five most recent of the store: min(5, number of tasks) of
them, ordered by createdAt descending, none older than a task left out, tasks
of equal createdAt in store order; the employee dashboard shows the same over
the tasks whose assignedTo is the caller. -/
theorem recentTasks_most_recent (st : Store) (admin employee : User)
    (hadmin : admin.role = "admin") :
    (∃ (stats : AdminStats) (kept : List Task),
      (adminDashboard st admin).1 =
        ⟨200, .adminDashboard stats (kept.map (fun task =>
          task.view (orUndefined (findById st.users (some task.assignedTo)))
            (orUndefined (findById st.users (some task.assignedBy)))))⟩ ∧
      MostRecentFive st.tasks kept) ∧
    (∃ (stats : EmployeeStats) (kept : List Task),
      (employeeDashboard st employee).1 =
        ⟨200, .employeeDashboard stats (kept.map (fun task =>
          task.view (.id task.assignedTo)
            (orUndefined (findById st.users (some task.assignedBy)))))⟩ ∧
      MostRecentFive (st.tasks.filter (fun t => decide (t.assignedTo = employee.id))) kept) := by
  constructor
  · unfold adminDashboard
    rw [if_neg (not_admin_test hadmin)]
    exact ⟨_, _, rfl, mostRecentFive_sortRecent st.tasks⟩
  · unfold employeeDashboard
    exact ⟨_, _, rfl, mostRecentFive_sortRecent _⟩

theorem recentTasks_most_recent_witness :
    (∃ (stats : AdminStats) (kept : List Task),
      (adminDashboard demoStore demoAdmin).1 =
        ⟨200, .adminDashboard stats (kept.map (fun task =>
          task.view (orUndefined (findById demoStore.users (some task.assignedTo)))
            (orUndefined (findById demoStore.users (some task.assignedBy)))))⟩ ∧
      MostRecentFive demoStore.tasks kept) ∧
    (∃ (stats : EmployeeStats) (kept : List Task),
      (employeeDashboard demoStore demoEmployee).1 =
        ⟨200, .employeeDashboard stats (kept.map (fun task =>
          task.view (.id task.assignedTo)
            (orUndefined (findById demoStore.users (some task.assignedBy)))))⟩ ∧
      MostRecentFive
        (demoStore.tasks.filter (fun t => decide (t.assignedTo = demoEmployee.id))) kept) :=
  recentTasks_most_recent demoStore demoAdmin demoEmployee (by decide)

/-! ## Dashboard counts for any statuses -/

/-- C30. Whatever the statuses in the store, both dashboards report
pendingTasks + inProgressTasks + completedTasks at most equal to totalTasks,
with equality exactly when every counted task (every task for the admin, every
task assigned to the caller for an employee) has one of the statuses pending,
in_progress and completed. -/
theorem dashboard_counts_le (st : Store) (admin employee : User)
    (hadmin : admin.role = "admin") :
    (∃ stats recent, (adminDashboard st admin).1 = ⟨200, .adminDashboard stats recent⟩ ∧
      stats.pendingTasks + stats.inProgressTasks + stats.completedTasks ≤ stats.totalTasks ∧
      (stats.pendingTasks + stats.inProgressTasks + stats.completedTasks = stats.totalTasks ↔
        ∀ t ∈ st.tasks, t.status = some "pending" ∨ t.status = some "in_progress" ∨
          t.status = some "completed")) ∧
    (∃ stats recent, (employeeDashboard st employee).1 =
        ⟨200, .employeeDashboard stats recent⟩ ∧
      stats.pendingTasks + stats.inProgressTasks + stats.completedTasks ≤ stats.totalTasks ∧
      (stats.pendingTasks + stats.inProgressTasks + stats.completedTasks = stats.totalTasks ↔
        ∀ t ∈ st.tasks, t.assignedTo = employee.id →
          t.status = some "pending" ∨ t.status = some "in_progress" ∨
            t.status = some "completed")) := by
  constructor
  · unfold adminDashboard
    rw [if_neg (not_admin_test hadmin)]
    exact ⟨_, _, rfl, (countStatus_sum st.tasks).1, (countStatus_sum st.tasks).2⟩
  · unfold employeeDashboard
    refine ⟨_, _, rfl, (countStatus_sum _).1, ?_⟩
    show _ = _ ↔ _
    rw [(countStatus_sum _).2]
    constructor
    · intro h t ht ha
      exact h t (List.mem_filter.2 ⟨ht, by simpa using ha⟩)
    · intro h t ht
      have hm := List.mem_filter.1 ht
      exact h t hm.1 (by simpa using hm.2)

theorem dashboard_counts_le_witness :
    (∃ stats recent, (adminDashboard blockedStore (sampleAdmin 100)).1 =
        ⟨200, .adminDashboard stats recent⟩ ∧
      stats.pendingTasks + stats.inProgressTasks + stats.completedTasks ≤ stats.totalTasks ∧
      (stats.pendingTasks + stats.inProgressTasks + stats.completedTasks = stats.totalTasks ↔
        ∀ t ∈ blockedStore.tasks, t.status = some "pending" ∨
          t.status = some "in_progress" ∨ t.status = some "completed")) ∧
    (∃ stats recent, (employeeDashboard blockedStore demoEmployee).1 =
        ⟨200, .employeeDashboard stats recent⟩ ∧
      stats.pendingTasks + stats.inProgressTasks + stats.completedTasks ≤ stats.totalTasks ∧
      (stats.pendingTasks + stats.inProgressTasks + stats.completedTasks = stats.totalTasks ↔
        ∀ t ∈ blockedStore.tasks, t.assignedTo = demoEmployee.id →
          t.status = some "pending" ∨ t.status = some "in_progress" ∨
            t.status = some "completed")) :=
  dashboard_counts_le blockedStore (sampleAdmin 100) demoEmployee (by decide)

/-! ## Dangling references -/

theorem orNull_findById_of_unknown (users : List User) (x : String) :
    (∃ u ∈ users, u.id = x) ∨ orNull (findById users (some x)) = .null := by
  cases hf : findById users (some x) with
  | none => exact Or.inr rfl
  | some u =>
    left
    have h := findById_eq_some hf
    exact ⟨u, h.1, (Option.some.inj h.2).symm⟩

/-- C22. For an admin caller, get-task answers 200 with the task the lookup by
id resolves to, and the list of all tasks answers 200 with every stored task in
order, each with its stored fields; in both, assignedTo is null when no user
has the task's assignedTo as id, and assignedBy is null when no user has its
assignedBy as id. -/
theorem dangling_reference_null (st : Store) (admin : User) (id : String) (t : Task)
    (hadmin : admin.role = "admin")
    (hfind : st.tasks.find? (fun t => t.hasId id) = some t) :
    (∃ a b : UserRef, getTask st admin id = (⟨200, .task (t.view a b)⟩, st) ∧
      ((∃ u ∈ st.users, u.id = t.assignedTo) ∨ a = .null) ∧
      ((∃ u ∈ st.users, u.id = t.assignedBy) ∨ b = .null)) ∧
    (∃ a b : Task → UserRef,
      listAllTasks st admin =
        (⟨200, .tasks (st.tasks.map (fun s => s.view (a s) (b s)))⟩, st) ∧
      ∀ s : Task, ((∃ u ∈ st.users, u.id = s.assignedTo) ∨ a s = .null) ∧
        ((∃ u ∈ st.users, u.id = s.assignedBy) ∨ b s = .null)) := by
  constructor
  · refine ⟨_, _, ?_, orNull_findById_of_unknown st.users t.assignedTo,
      orNull_findById_of_unknown st.users t.assignedBy⟩
    rw [getTask_of_find admin hfind,
      if_neg (by simp [(accessDenied_eq_false_iff admin t).2 (Or.inl hadmin)])]
  · refine ⟨fun s => orNull (findById st.users (some s.assignedTo)),
      fun s => orNull (findById st.users (some s.assignedBy)), ?_, ?_⟩
    · unfold listAllTasks
      rw [if_neg (not_admin_test hadmin)]
    · intro s
      exact ⟨orNull_findById_of_unknown st.users s.assignedTo,
        orNull_findById_of_unknown st.users s.assignedBy⟩

theorem dangling_reference_null_witness :
    (∃ a b : UserRef,
      getTask { demoStore with users := [demoAdmin] } demoAdmin "t1" =
        (⟨200, .task (demoTask.view a b)⟩, { demoStore with users := [demoAdmin] }) ∧
      ((∃ u ∈ [demoAdmin], u.id = demoTask.assignedTo) ∨ a = .null) ∧
      ((∃ u ∈ [demoAdmin], u.id = demoTask.assignedBy) ∨ b = .null)) ∧
    (∃ a b : Task → UserRef,
      listAllTasks { demoStore with users := [demoAdmin] } demoAdmin =
        (⟨200, .tasks (demoStore.tasks.map (fun s => s.view (a s) (b s)))⟩,
          { demoStore with users := [demoAdmin] }) ∧
      ∀ s : Task, ((∃ u ∈ [demoAdmin], u.id = s.assignedTo) ∨ a s = .null) ∧
        ((∃ u ∈ [demoAdmin], u.id = s.assignedBy) ∨ b s = .null)) :=
  dangling_reference_null { demoStore with users := [demoAdmin] } demoAdmin "t1" demoTask
    (by decide) (by decide)

/-! ## Profile update -/

theorem updateProfile_of_found {st : Store} {user : User} {idx : Nat} {old : User}
    (body : Body)
    (hidx : st.users.findIdx? (fun u => decide (u.id = user.id)) = some idx)
    (hold : st.users[idx]? = some old) :
    updateProfile st user body =
      (⟨200, .profileUpdated "Profile updated successfully"
          { old with
            name := if truthy body.name then body.name else old.name
            phone := body.phone
            department := body.department
            position := body.position }⟩,
        { users := st.users.set idx
            { old with
              name := if truthy body.name then body.name else old.name
              phone := body.phone
              department := body.department
              position := body.position },
          tasks := st.tasks }) := by
  unfold updateProfile
  rw [hidx]
  dsimp only
  rw [hold]

theorem updateProfile_cases (st : Store) (user : User) (body : Body) :
    updateProfile st user body = (⟨404, .message "User not found"⟩, st) ∨
    ∃ (idx : Nat) (old : User),
      st.users.findIdx? (fun u => decide (u.id = user.id)) = some idx ∧
      st.users[idx]? = some old ∧
      updateProfile st user body =
        (⟨200, .profileUpdated "Profile updated successfully"
            { old with
              name := if truthy body.name then body.name else old.name
              phone := body.phone
              department := body.department
              position := body.position }⟩,
          { users := st.users.set idx
              { old with
                name := if truthy body.name then body.name else old.name
                phone := body.phone
                department := body.department
                position := body.position },
            tasks := st.tasks }) := by
  cases hidx : st.users.findIdx? (fun u => decide (u.id = user.id)) with
  | none =>
    left
    unfold updateProfile
    rw [hidx]
  | some idx =>
    right
    obtain ⟨pre, t, post, hl, hlen, _, _⟩ := findIdx?_split _ _ _ hidx
    have hold : st.users[idx]? = some t := by
      rw [hl, ← hlen, List.getElem?_append_right (Nat.le_refl _), Nat.sub_self]
      exact List.getElem?_cons_zero
    exact ⟨idx, t, rfl, hold, updateProfile_of_found body hidx hold⟩

/-- C24, as stated, fails: the demo employee has a phone, a department and a
position; a profile update that carries only a name removes all three. -/
theorem updateProfile_drops_absent_fields :
    (sampleEmployee demoBcrypt 100).phone = some "000-000-0000" ∧
    (sampleEmployee demoBcrypt 100).department = some "General" ∧
    (sampleEmployee demoBcrypt 100).position = some "Staff" ∧
    updateProfile startedStore (sampleEmployee demoBcrypt 100)
        { emptyBody with name := some "Fara" } =
      (⟨200, .profileUpdated "Profile updated successfully"
          { sampleEmployee demoBcrypt 100 with
            name := some "Fara", phone := none, department := none, position := none }⟩,
        { users := [sampleAdmin 100,
            { sampleEmployee demoBcrypt 100 with
              name := some "Fara", phone := none, department := none, position := none }],
          tasks := [] }) := by
  decide

/-- C24, amended. For a stored caller the update answers 200 and replaces the
caller's record by one whose name is the request's name, or the previous name
when the request's name is absent or empty, and whose phone, department and
position are the request's values, absent ones included. -/
theorem updateProfile_fields (st : Store) (user : User) (body : Body) (idx : Nat)
    (old : User)
    (hidx : st.users.findIdx? (fun u => decide (u.id = user.id)) = some idx)
    (hold : st.users[idx]? = some old) :
    ∃ new : User,
      updateProfile st user body =
        (⟨200, .profileUpdated "Profile updated successfully" new⟩,
          { users := st.users.set idx new, tasks := st.tasks }) ∧
      (((body.name = none ∨ body.name = some "") ∧ new.name = old.name) ∨
        (∃ n, body.name = some n ∧ n ≠ "" ∧ new.name = some n)) ∧
      new.phone = body.phone ∧ new.department = body.department ∧
      new.position = body.position := by
  rw [updateProfile_of_found body hidx hold]
  refine ⟨_, rfl, ?_, rfl, rfl, rfl⟩
  by_cases ht : truthy body.name = true
  · right
    obtain ⟨n, hn, hne⟩ := (truthy_eq_true_iff _).1 ht
    refine ⟨n, hn, hne, ?_⟩
    show (if truthy body.name = true then body.name else old.name) = some n
    rw [if_pos ht, hn]
  · left
    have hf : truthy body.name = false := by simpa using ht
    refine ⟨(truthy_eq_false_iff _).1 hf, ?_⟩
    show (if truthy body.name = true then body.name else old.name) = old.name
    rw [if_neg ht]

theorem updateProfile_fields_witness :
    ∃ new : User,
      updateProfile startedStore (sampleEmployee demoBcrypt 100)
          { emptyBody with phone := some "555" } =
        (⟨200, .profileUpdated "Profile updated successfully" new⟩,
          { users := startedStore.users.set 1 new, tasks := startedStore.tasks }) ∧
      (((none = (none : Option String) ∨ none = some "") ∧
          new.name = (sampleEmployee demoBcrypt 100).name) ∨
        (∃ n, none = some n ∧ n ≠ "" ∧ new.name = some n)) ∧
      new.phone = some "555" ∧ new.department = none ∧ new.position = none :=
  updateProfile_fields startedStore (sampleEmployee demoBcrypt 100)
    { emptyBody with phone := some "555" } 1 (sampleEmployee demoBcrypt 100)
    (by decide) (by decide)

/-- C25. Whatever the request carries, a profile update leaves the task
document and the number and order of the user records as they were; the record
at every position keeps its email, role, id, password hash, isActive and
createdAt, and a record at a position other than the one the lookup by the
caller's id resolves to is not changed at all. -/
theorem updateProfile_immutable (st : Store) (user : User) (body : Body) :
    (updateProfile st user body).2.tasks = st.tasks ∧
    (updateProfile st user body).2.users.length = st.users.length ∧
    ∀ (i : Nat) (old : User), st.users[i]? = some old →
      ∃ new : User, (updateProfile st user body).2.users[i]? = some new ∧
        new.email = old.email ∧ new.role = old.role ∧ new.id = old.id ∧
        new.password = old.password ∧ new.isActive = old.isActive ∧
        new.createdAt = old.createdAt ∧
        (st.users.findIdx? (fun u => decide (u.id = user.id)) ≠ some i → new = old) := by
  rcases updateProfile_cases st user body with h | ⟨idx, old0, hidx, hold0, heq⟩
  · rw [h]
    refine ⟨rfl, rfl, ?_⟩
    intro i old hold
    exact ⟨old, hold, rfl, rfl, rfl, rfl, rfl, rfl, fun _ => rfl⟩
  · rw [heq]
    refine ⟨rfl, List.length_set _ _ _, ?_⟩
    intro i old hold
    by_cases hii : idx = i
    · subst hii
      have hoo : old0 = old := by
        rw [hold0] at hold
        exact Option.some.inj hold
      subst hoo
      refine ⟨{ old0 with
          name := if truthy body.name then body.name else old0.name
          phone := body.phone
          department := body.department
          position := body.position }, ?_, rfl, rfl, rfl, rfl, rfl, rfl,
        fun hne => absurd hidx hne⟩
      show (st.users.set idx _)[idx]? = some _
      rw [List.getElem?_set_self', hold0]
      rfl
    · refine ⟨old, ?_, rfl, rfl, rfl, rfl, rfl, rfl, fun _ => rfl⟩
      show (st.users.set idx _)[i]? = some old
      rw [List.getElem?_set_ne hii, hold]

/-! ## Attachments -/

/-- C26. For a task the lookup by id resolves to and a caller who is an admin
or the assignee, the upload of a file answers 201 and replaces that task by one
that differs only in its attachments: the previous list, in order, followed by
one record with the file's stored name, original name, mimetype and size, the
clock reading and the caller's id; every other position of the task document
and the user document are unchanged, and a task with an empty list ends with a
list of length 1. -/
theorem upload_appends (now : Nat) (st : Store) (user : User) (id : String)
    (f : UploadedFile) (t : Task)
    (hfind : st.tasks.find? (fun t => t.hasId id) = some t)
    (hperm : user.role = "admin" ∨ t.assignedTo = user.id) :
    ∃ (i : Nat) (att : Attachment) (new : Task),
      st.tasks[i]? = some t ∧
      uploadAttachment now st user id (some f) =
        (⟨201, .uploaded "File uploaded successfully" att⟩,
          { users := st.users, tasks := st.tasks.set i new }) ∧
      att.originalName = f.originalname ∧ att.size = f.size ∧ att.mimetype = f.mimetype ∧
      att.uploadedBy = user.id ∧ att.filename = f.filename ∧ att.uploadedAt = now ∧
      new = { t with attachments := some (t.attachmentList ++ [att]) } ∧
      (st.tasks.set i new).length = st.tasks.length ∧
      (st.tasks.set i new)[i]? = some new ∧
      (∀ j : Nat, j ≠ i → (st.tasks.set i new)[j]? = st.tasks[j]?) ∧
      (t.attachmentList ≠ [] ∨ new.attachmentList.length = 1) := by
  rcases uploadAttachment_of_find now user (some f) hfind with h | h | h
  · exact absurd hperm ((accessDenied_eq_true_iff user t).1 h.1)
  · exact absurd h.2.1 (by simp)
  · obtain ⟨_, g, i, hg, hi, heq⟩ := h
    cases hg
    refine ⟨i, ⟨f.filename, f.originalname, f.mimetype, f.size, now, user.id⟩, _, hi, heq,
      rfl, rfl, rfl, rfl, rfl, rfl, rfl, List.length_set _ _ _, ?_, ?_, ?_⟩
    · rw [List.getElem?_set_self', hi]
      rfl
    · intro j hj
      exact List.getElem?_set_ne (fun h => hj h.symm)
    · by_cases he : t.attachmentList = []
      · right
        show (Option.getD (some (t.attachmentList ++ _)) []).length = 1
        rw [he]
        rfl
      · exact Or.inl he

theorem upload_appends_witness :
    ∃ (i : Nat) (att : Attachment) (new : Task),
      demoStore.tasks[i]? = some demoTask ∧
      uploadAttachment 9 demoStore demoEmployee "t1" (some demoFile) =
        (⟨201, .uploaded "File uploaded successfully" att⟩,
          { users := demoStore.users, tasks := demoStore.tasks.set i new }) ∧
      att.originalName = demoFile.originalname ∧ att.size = demoFile.size ∧
      att.mimetype = demoFile.mimetype ∧
      att.uploadedBy = demoEmployee.id ∧ att.filename = demoFile.filename ∧
      att.uploadedAt = 9 ∧
      new = { demoTask with attachments := some (demoTask.attachmentList ++ [att]) } ∧
      (demoStore.tasks.set i new).length = demoStore.tasks.length ∧
      (demoStore.tasks.set i new)[i]? = some new ∧
      (∀ j : Nat, j ≠ i → (demoStore.tasks.set i new)[j]? = demoStore.tasks[j]?) ∧
      (demoTask.attachmentList ≠ [] ∨ new.attachmentList.length = 1) :=
  upload_appends 9 demoStore demoEmployee "t1" demoFile demoTask (by decide) (by decide)

/-! ## Sample data and the admin account -/

theorem map_role_updateFirst (p : User → Bool) (f : User → User)
    (hf : ∀ u, (f u).role = u.role) (users : List User) :
    (updateFirst p f users).map (fun u => u.role) = users.map (fun u => u.role) := by
  induction users with
  | nil => rfl
  | cons x xs ih =>
    unfold updateFirst
    by_cases hp : p x = true
    · simp [hp, hf]
    · simp [hp, ih]

theorem exists_admin_iff_mem_roles (users : List User) :
    (∃ u ∈ users, u.role = "admin") ↔ "admin" ∈ users.map (fun u => u.role) := by
  simp [List.mem_map]

/-- C28, as stated, fails: run on a store whose only user is an employee with
the email admin@example.com, the initialisation adds the demo employee and no
admin. -/
theorem initializeSampleData_without_admin :
    (initializeSampleData demoBcrypt 100 employeeWithAdminEmailStore).users =
      [{ demoEmployee with email := some "admin@example.com" },
        sampleEmployee demoBcrypt 100] ∧
    ∀ u ∈ (initializeSampleData demoBcrypt 100 employeeWithAdminEmailStore).users,
      u.role ≠ "admin" := by
  decide

/-- C28, amended. After the initialisation the store holds a user with role
admin exactly when it held one before or held no user with the email
admin@example.com; in particular it does when the user document was empty. -/
theorem initializeSampleData_admin_iff (bc : Bcrypt) (now : Nat) (st : Store) :
    ((∃ u ∈ (initializeSampleData bc now st).users, u.role = "admin") ↔
      ((∃ u ∈ st.users, u.role = "admin") ∨
        ∀ u ∈ st.users, u.email ≠ some "admin@example.com")) ∧
    ∃ u ∈ (initializeSampleData bc now { users := [], tasks := st.tasks }).users,
      u.role = "admin" := by
  have key : ∀ s : Store, (∃ u ∈ (initializeSampleData bc now s).users, u.role = "admin") ↔
      ((∃ u ∈ s.users, u.role = "admin") ∨
        ∀ u ∈ s.users, u.email ≠ some "admin@example.com") := by
    intro s
    have h1 : (∃ u ∈ (match findByEmail s.users (some "admin@example.com") with
        | none => s.users ++ [sampleAdmin now]
        | some _ => s.users), u.role = "admin") ↔
        ((∃ u ∈ s.users, u.role = "admin") ∨
          ∀ u ∈ s.users, u.email ≠ some "admin@example.com") := by
      cases hf : findByEmail s.users (some "admin@example.com") with
      | none =>
        have hno := (findByEmail_eq_none_iff _ _).1 hf
        constructor
        · intro _
          exact Or.inr hno
        · intro _
          exact ⟨sampleAdmin now, by simp, rfl⟩
      | some v =>
        obtain ⟨hv, hve⟩ := findByEmail_eq_some hf
        constructor
        · intro h
          exact Or.inl h
        · rintro (h | h)
          · exact h
          · exact absurd hve (h v hv)
    rw [← h1]
    unfold initializeSampleData
    generalize (match findByEmail s.users (some "admin@example.com") with
        | none => s.users ++ [sampleAdmin now]
        | some _ => s.users) = users
    dsimp only
    split
    · show (∃ u ∈ users ++ [sampleEmployee bc now], u.role = "admin") ↔ _
      constructor
      · rintro ⟨u, hu, hr⟩
        rcases List.mem_append.1 hu with h | h
        · exact ⟨u, h, hr⟩
        · rw [List.mem_singleton.1 h] at hr
          exact absurd hr (by simp [sampleEmployee])
      · rintro ⟨u, hu, hr⟩
        exact ⟨u, List.mem_append_left _ hu, hr⟩
    · split
      · show (∃ u ∈ updateFirst _ _ users, u.role = "admin") ↔ _
        have key := map_role_updateFirst
          (fun u => decide (u.email = some "farhanibushe@gmail.com"))
          (fun u => { u with password := bc.hash "12345678", isActive := true })
          (fun _ => rfl) users
        rw [exists_admin_iff_mem_roles, exists_admin_iff_mem_roles, key]
      · exact Iff.rfl
  refine ⟨key st, (key _).2 (Or.inr ?_)⟩
  intro u hu
  cases hu

/-! ## Task identifiers -/

/-- C29. Two creates handled at the same clock reading both succeed and give
both tasks the identifier "9"; a get by that id shows the first of them, and a
delete by that id removes the first and leaves the second. -/
theorem same_millisecond_same_id :
    (createTask demoParseDate 9 demoStore demoAdmin
      { emptyBody with title := some "First", assignedTo := some "e1" }).1.status = 201 ∧
    (createTask demoParseDate 9
      (createTask demoParseDate 9 demoStore demoAdmin
        { emptyBody with title := some "First", assignedTo := some "e1" }).2
      demoAdmin
      { emptyBody with title := some "Second", assignedTo := some "e1" }).1.status = 201 ∧
    twoCreatesStore.tasks.map (fun t => (t.id, t.title)) =
      [("t1", some "Report"), ("9", some "First"), ("9", some "Second")] ∧
    (∃ v, (getTask twoCreatesStore demoAdmin "9").1 = ⟨200, .task v⟩ ∧
      v.title = some "First") ∧
    (deleteTask twoCreatesStore demoAdmin "9").2.tasks.map (fun t => (t.id, t.title)) =
      [("t1", some "Report"), ("9", some "Second")] := by
  refine ⟨by decide, by decide, by decide, ⟨_, rfl, rfl⟩, by decide⟩

/-! ## Token verification -/

/-- C21, as stated, fails: an expired token and a string that is no token at
all get the same answer, 401 "Token is not valid". -/
theorem auth_expired_same_as_invalid :
    demoJwtVerify "token-old" = .expired ∧ demoJwtVerify "garbage" = .invalid ∧
    auth demoJwtVerify demoStore (some "Bearer token-old") =
      .denied ⟨401, .message "Token is not valid"⟩ ∧
    auth demoJwtVerify demoStore (some "Bearer garbage") =
      .denied ⟨401, .message "Token is not valid"⟩ := by
  decide

/-- C21, amended. The middleware has two failures. It answers 401 "No token,
authorization denied" exactly when no token is presented (the header is absent
or empty, or nothing is left of it without "Bearer "). It answers 401 "Token is
not valid" exactly when a token is presented that jwt.verify rejects as invalid
or as expired, or whose userId is the id of no stored user. In every other case
it resolves to the first stored user whose id is the token's userId. -/
theorem auth_outcome (jwtVerify : String → JwtResult) (st : Store)
    (authorization : Option String) :
    (auth jwtVerify st authorization =
        .denied ⟨401, .message "No token, authorization denied"⟩ ↔
      (bearerToken authorization = none ∨ bearerToken authorization = some "")) ∧
    (auth jwtVerify st authorization = .denied ⟨401, .message "Token is not valid"⟩ ↔
      ∃ tok, bearerToken authorization = some tok ∧ tok ≠ "" ∧
        (jwtVerify tok = .invalid ∨ jwtVerify tok = .expired ∨
          ∃ uid, jwtVerify tok = .decoded uid ∧ ∀ u ∈ st.users, some u.id ≠ uid)) ∧
    (∀ u : User, auth jwtVerify st authorization = .user u ↔
      ∃ tok, bearerToken authorization = some tok ∧ tok ≠ "" ∧
        jwtVerify tok = .decoded (some u.id) ∧ findById st.users (some u.id) = some u) := by
  cases hb : bearerToken authorization with
  | none =>
    have hA : auth jwtVerify st authorization =
        .denied ⟨401, .message "No token, authorization denied"⟩ := by
      simp [auth, hb, truthy]
    rw [hA]
    refine ⟨⟨fun _ => Or.inl rfl, fun _ => rfl⟩, ⟨fun h => ?_, fun h => ?_⟩,
      fun u => ⟨fun h => ?_, fun h => ?_⟩⟩
    · exact absurd h (by decide)
    · obtain ⟨tok, h2, _⟩ := h
      cases h2
    · cases h
    · obtain ⟨tok, h2, _⟩ := h
      cases h2
  | some tok =>
    by_cases hne : tok = ""
    · have hA : auth jwtVerify st authorization =
          .denied ⟨401, .message "No token, authorization denied"⟩ := by
        simp [auth, hb, truthy, hne]
      rw [hA]
      refine ⟨⟨fun _ => Or.inr (by rw [hne]), fun _ => rfl⟩, ⟨fun h => ?_, fun h => ?_⟩,
        fun u => ⟨fun h => ?_, fun h => ?_⟩⟩
      · exact absurd h (by decide)
      · obtain ⟨tok2, h2, hne2, _⟩ := h
        cases h2
        exact absurd hne hne2
      · cases h
      · obtain ⟨tok2, h2, hne2, _⟩ := h
        cases h2
        exact absurd hne hne2
    · have hnot : ¬ (some tok = none ∨ some tok = some "") := by
        rintro (h | h)
        · cases h
        · exact hne (Option.some.inj h)
      cases hv : jwtVerify tok with
      | invalid =>
        have hA : auth jwtVerify st authorization =
            .denied ⟨401, .message "Token is not valid"⟩ := by
          simp [auth, hb, truthy, hne, hv]
        rw [hA]
        refine ⟨⟨fun h => ?_, fun h => absurd h hnot⟩,
          ⟨fun _ => ⟨tok, rfl, hne, Or.inl hv⟩, fun _ => rfl⟩,
          fun u => ⟨fun h => ?_, fun h => ?_⟩⟩
        · exact absurd h (by decide)
        · cases h
        · obtain ⟨tok2, h2, _, hd, _⟩ := h
          cases h2
          rw [hv] at hd
          cases hd
      | expired =>
        have hA : auth jwtVerify st authorization =
            .denied ⟨401, .message "Token is not valid"⟩ := by
          simp [auth, hb, truthy, hne, hv]
        rw [hA]
        refine ⟨⟨fun h => ?_, fun h => absurd h hnot⟩,
          ⟨fun _ => ⟨tok, rfl, hne, Or.inr (Or.inl hv)⟩, fun _ => rfl⟩,
          fun u => ⟨fun h => ?_, fun h => ?_⟩⟩
        · exact absurd h (by decide)
        · cases h
        · obtain ⟨tok2, h2, _, hd, _⟩ := h
          cases h2
          rw [hv] at hd
          cases hd
      | decoded uid =>
        cases hf : findById st.users uid with
        | none =>
          have hno := (findById_eq_none_iff _ _).1 hf
          have hA : auth jwtVerify st authorization =
              .denied ⟨401, .message "Token is not valid"⟩ := by
            simp [auth, hb, truthy, hne, hv, hf]
          rw [hA]
          refine ⟨⟨fun h => ?_, fun h => absurd h hnot⟩,
            ⟨fun _ => ⟨tok, rfl, hne, Or.inr (Or.inr ⟨uid, hv, hno⟩)⟩, fun _ => rfl⟩,
            fun u => ⟨fun h => ?_, fun h => ?_⟩⟩
          · exact absurd h (by decide)
          · cases h
          · obtain ⟨tok2, h2, _, hd, hfu⟩ := h
            cases h2
            rw [hv] at hd
            cases hd
            rw [hf] at hfu
            cases hfu
        | some v =>
          have hv2 := findById_eq_some hf
          have hA : auth jwtVerify st authorization = .user v := by
            simp [auth, hb, truthy, hne, hv, hf]
          rw [hA]
          refine ⟨⟨fun h => ?_, fun h => absurd h hnot⟩, ⟨fun h => ?_, fun h => ?_⟩,
            fun u => ⟨fun h => ?_, fun h => ?_⟩⟩
          · cases h
          · cases h
          · obtain ⟨tok2, h2, _, h3⟩ := h
            cases h2
            rcases h3 with h | h | ⟨uid2, hd, hno2⟩
            · rw [hv] at h; cases h
            · rw [hv] at h; cases h
            · rw [hv] at hd
              cases hd
              exact absurd hv2.2.symm (hno2 v hv2.1)
          · cases h
            refine ⟨tok, rfl, hne, ?_, ?_⟩
            · rw [hv, hv2.2]
            · rw [← hv2.2]
              exact hf
          · obtain ⟨tok2, h2, _, hd, hfu⟩ := h
            cases h2
            rw [hv] at hd
            cases hd
            rw [hf] at hfu
            cases hfu
            rfl

/-! ## The missing employee routes -/

/-- C23. The server registers no handler for DELETE (or PUT) on
/api/admin/employees/:id: whatever the id and the store, the request the
client's deleteEmployee sends reaches the final handler, which answers 404
"Route not found" and leaves the store as it is. The routes next to it are
registered: DELETE on /api/admin/tasks/:id and POST on /api/admin/employees. -/
theorem deleteEmployee_unrouted (st : Store) (id : String) :
    unroutedAnswer .delete ["api", "admin", "employees", id] st =
      some (⟨404, .message "Route not found"⟩, st) ∧
    unroutedAnswer .put ["api", "admin", "employees", id] st =
      some (⟨404, .message "Route not found"⟩, st) ∧
    routed .delete ["api", "admin", "tasks", "t1"] = true ∧
    routed .post ["api", "admin", "employees"] = true := by
  refine ⟨?_, ?_, by decide, by decide⟩
  · simp [unroutedAnswer, routed, routes, matchPath, Segment.fits]
  · simp [unroutedAnswer, routed, routes, matchPath, Segment.fits]

/-! ## Names of uploaded files -/

theorem safeChar_digitChar (n : Nat) (h : n < 10) : safeChar (Nat.digitChar n) = true := by
  interval_cases n <;> decide

theorem safeChar_toDigitsCore (fuel n : Nat) (ds : List Char)
    (hds : ∀ c ∈ ds, safeChar c = true) :
    ∀ c ∈ Nat.toDigitsCore 10 fuel n ds, safeChar c = true := by
  induction fuel generalizing n ds with
  | zero => exact hds
  | succ k ih =>
    have hd : safeChar (Nat.digitChar (n % 10)) = true :=
      safeChar_digitChar _ (Nat.mod_lt n (by decide))
    have hcons : ∀ c ∈ Nat.digitChar (n % 10) :: ds, safeChar c = true := by
      intro c hc
      rcases List.mem_cons.1 hc with rfl | hc
      · exact hd
      · exact hds c hc
    unfold Nat.toDigitsCore
    dsimp only
    split
    · exact hcons
    · exact ih _ _ hcons

theorem safeChar_toString (n : Nat) : ∀ c ∈ (toString n).toList, safeChar c = true :=
  safeChar_toDigitsCore (n + 1) n [] (fun _ h => absurd h (List.not_mem_nil _))

theorem safeChar_sanitize (name : String) :
    ∀ c ∈ (sanitize name).toList, safeChar c = true := by
  intro c hc
  unfold sanitize at hc
  obtain ⟨d, _, hd⟩ := List.mem_flatMap.1 hc
  unfold sanitizeChar at hd
  by_cases hs : safeChar d = true
  · rw [if_pos hs] at hd
    rw [List.mem_singleton.1 hd]
    exact hs
  · rw [if_neg hs] at hd
    split at hd
    · rw [List.mem_singleton.1 hd]
      decide
    · rcases List.mem_cons.1 hd with rfl | hd
      · decide
      · rw [List.mem_singleton.1 hd]
        decide

theorem safeChar_storageFilename (now random : Nat) (name : String) :
    ∀ c ∈ (storageFilename now random name).toList, safeChar c = true := by
  intro c hc
  unfold storageFilename at hc
  simp only [String.toList, String.data_append, List.mem_append] at hc
  rcases hc with ((h | h) | h) | h
  · rcases h with h | h
    · exact safeChar_toString now c h
    · have : c = '-' := by simpa using h
      rw [this]
      decide
  · exact safeChar_toString random c h
  · have : c = '-' := by simpa using h
    rw [this]
    decide
  · exact safeChar_sanitize name c h

/-- C27, as stated, fails: for the file name "my report?.txt" the recorded
originalName is that very name, with its blank and its question mark; only the
stored filename is sanitized. -/
theorem upload_keeps_raw_name :
    (uploadAttachment 9 demoStore demoEmployee "t1"
        (some (multerFile 9 5 "my report?.txt" "text/plain" 12))).1 =
      ⟨201, .uploaded "File uploaded successfully"
        { filename := "9-5-my_report_.txt", originalName := "my report?.txt",
          mimetype := "text/plain", size := 12, uploadedAt := 9, uploadedBy := "e1" }⟩ ∧
    safeChar ' ' = false ∧ safeChar '?' = false := by
  decide

/-- C27, amended. For a permitted upload of a file as multer delivers it, the
recorded originalName is the user-supplied name unchanged, and the recorded
filename is the clock reading, the random number and the sanitized name joined
by "-", which contains only characters from [a-zA-Z0-9_.-]. -/
theorem upload_names (nowFile random now : Nat) (st : Store) (user : User) (id : String)
    (name mimetype : String) (size : Nat) (t : Task)
    (hfind : st.tasks.find? (fun t => t.hasId id) = some t)
    (hperm : user.role = "admin" ∨ t.assignedTo = user.id) :
    ∃ att : Attachment,
      (uploadAttachment now st user id
          (some (multerFile nowFile random name mimetype size))).1 =
        ⟨201, .uploaded "File uploaded successfully" att⟩ ∧
      att.originalName = name ∧
      att.filename = toString nowFile ++ "-" ++ toString random ++ "-" ++ sanitize name ∧
      (∀ c ∈ att.filename.toList, safeChar c = true) ∧
      (∀ c ∈ (sanitize name).toList, safeChar c = true) := by
  rcases uploadAttachment_of_find now user
      (some (multerFile nowFile random name mimetype size)) hfind with h | h | h
  · exact absurd hperm ((accessDenied_eq_true_iff user t).1 h.1)
  · exact absurd h.2.1 (by simp)
  · obtain ⟨_, g, i, hg, _, heq⟩ := h
    cases hg
    rw [heq]
    exact ⟨_, rfl, rfl, rfl, safeChar_storageFilename nowFile random name,
      safeChar_sanitize name⟩

theorem upload_names_witness :
    ∃ att : Attachment,
      (uploadAttachment 9 demoStore demoEmployee "t1"
          (some (multerFile 8 5 "my report?.txt" "text/plain" 12))).1 =
        ⟨201, .uploaded "File uploaded successfully" att⟩ ∧
      att.originalName = "my report?.txt" ∧
      att.filename = toString 8 ++ "-" ++ toString 5 ++ "-" ++ sanitize "my report?.txt" ∧
      (∀ c ∈ att.filename.toList, safeChar c = true) ∧
      (∀ c ∈ (sanitize "my report?.txt").toList, safeChar c = true) :=
  upload_names 8 5 9 demoStore demoEmployee "t1" "my report?.txt" "text/plain" 12 demoTask
    (by decide) (by decide)

end EmployeeTask
